import Mathlib

/-!
Verification development for the multi-camera-monitoring repository.

The definitions below are shallow embeddings of the C++ classes of the
repository: `MCM::FrameBuffer` (src/core/FrameBuffer.h and its
implementation), `MCM::VideoRecorder` (the OpenCV-based recorder in
src/core/Config.cpp), `MCM::QtVideoRecorder` (the double-buffered
Qt-multimedia recorder), `MCM::DeviceCapture::run` (the wired-device
connect/retry loop) and the wired branch of `MCM::CameraSlot::startStream`.
Frames are abstracted to numeric identifiers; Qt signal emissions and
external side effects (encoder opens, frame writes, sleeps) are recorded in
explicit event/action traces so that ordering and occurrence properties can
be stated.
-/

set_option maxHeartbeats 1000000

namespace MCM

/-- Signals emitted by `FrameBuffer`: `healthChanged(bool)` and
`sizeChanged(int)`. -/
inductive BufEvent where
  | healthChanged (healthy : Bool)
  | sizeChanged (currentSize : Int)
deriving DecidableEq, Repr

/-- State of `MCM::FrameBuffer`: the deque of frames (as abstract ids, front
first), `m_maxSize`, `m_minMaintenance`, `m_stopped`, `m_wasHealthy`, plus
the trace of emitted signals. -/
structure FrameBuffer where
  buffer : List Nat
  maxSize : Int
  minMaintenance : Int
  stopped : Bool
  wasHealthy : Bool
  events : List BufEvent
deriving DecidableEq, Repr

/-- `FrameBuffer::FrameBuffer(maxSize, minMaintenance)`. -/
def mkFrameBuffer (maxSize minMaintenance : Int) : FrameBuffer :=
  { buffer := []
    maxSize := maxSize
    minMaintenance := minMaintenance
    stopped := false
    wasHealthy := false
    events := [] }

/-- `FrameBuffer::checkHealthChange(currentSize)`: once the size reaches the
hardcoded `STARTUP_THRESHOLD = 5` it latches `m_wasHealthy` and emits
`healthChanged(true)`; it never latches back to unhealthy. -/
def checkHealthChange (s : FrameBuffer) (currentSize : Int) : FrameBuffer :=
  if !s.wasHealthy && 5 ≤ currentSize then
    { s with wasHealthy := true, events := s.events ++ [.healthChanged true] }
  else s

/-- The common tail of `push`/`pop`/`tryPop` after the buffer was modified:
`checkHealthChange(currentSize); emit sizeChanged(currentSize);`. -/
def afterChange (s : FrameBuffer) (newbuf : List Nat) : FrameBuffer :=
  let s1 := checkHealthChange { s with buffer := newbuf } (newbuf.length : Int)
  { s1 with events := s1.events ++ [.sizeChanged (newbuf.length : Int)] }

/-- `FrameBuffer::push(frame)`: fails only when stopped; if the buffer is
full the oldest (front) frame is dropped, the new frame is appended, health
is re-checked and `sizeChanged` is emitted. -/
def push (s : FrameBuffer) (frame : Nat) : FrameBuffer × Bool :=
  if s.stopped then (s, false)
  else
    let dropped := if s.maxSize ≤ (s.buffer.length : Int) then s.buffer.tail else s.buffer
    (afterChange s (dropped ++ [frame]), true)

/-- `FrameBuffer::pop(timeout)`: the completed result of a call. While the
buffer is empty and not stopped the caller blocks; on timeout or stop the
call completes with a null image and no state change, which is the value
this sequential model returns in that case. A stopped buffer returns a null
image even when frames remain (the `m_stopped || empty` check runs before
the front frame is taken). -/
def pop (s : FrameBuffer) : FrameBuffer × Option Nat :=
  if s.stopped || s.buffer.isEmpty then (s, none)
  else
    match s.buffer with
    | [] => (s, none)
    | f :: rest => (afterChange s rest, some f)

/-- `FrameBuffer::tryPop()`: non-blocking pop; note that unlike `pop` it does
not consult `m_stopped`. -/
def tryPop (s : FrameBuffer) : FrameBuffer × Option Nat :=
  match s.buffer with
  | [] => (s, none)
  | f :: rest => (afterChange s rest, some f)

/-- `FrameBuffer::clear()`. -/
def clear (s : FrameBuffer) : FrameBuffer :=
  { s with
    buffer := []
    wasHealthy := false
    events := s.events ++ [.healthChanged false, .sizeChanged 0] }

/-- `FrameBuffer::stop()`. -/
def stop (s : FrameBuffer) : FrameBuffer :=
  { s with stopped := true }

/-- `FrameBuffer::reset()`. -/
def reset (s : FrameBuffer) : FrameBuffer :=
  { s with buffer := [], stopped := false, wasHealthy := false }

/-- `FrameBuffer::isHealthy()`: after the health has latched it reports
`size >= m_minMaintenance`; before latching it reports `size >= m_maxSize`. -/
def isHealthy (s : FrameBuffer) : Bool :=
  if s.wasHealthy then s.minMaintenance ≤ (s.buffer.length : Int)
  else s.maxSize ≤ (s.buffer.length : Int)

/-- A consumer/producer operation on the buffer (the operations quantified
over by the health/eviction claims). -/
inductive BufOp where
  | push (frame : Nat)
  | pop
  | tryPop
deriving DecidableEq, Repr

/-- Apply one operation, keeping only the buffer state. -/
def applyOp (s : FrameBuffer) : BufOp → FrameBuffer
  | .push f => (push s f).1
  | .pop => (pop s).1
  | .tryPop => (tryPop s).1

/-- Run a sequence of operations left to right. -/
def runOps (s : FrameBuffer) : List BufOp → FrameBuffer
  | [] => s
  | o :: os => runOps (applyOp s o) os

/-- Run a sequence of `push` calls left to right. -/
def pushAll (s : FrameBuffer) : List Nat → FrameBuffer
  | [] => s
  | f :: fs => pushAll (push s f).1 fs

/-- The buffer sizes observed right after each operation of a run. -/
def sizeTrace (s : FrameBuffer) : List BufOp → List Nat
  | [] => []
  | o :: os =>
    let s1 := applyOp s o
    s1.buffer.length :: sizeTrace s1 os

/-- Signals emitted by the OpenCV-based `MCM::VideoRecorder` of Config.cpp:
`chunkCompleted`, `chunkStarted` and `errorOccurred`. -/
inductive RecEvent where
  | chunkCompleted (n : Int) (path : String)
  | chunkStarted (n : Int) (path : String)
  | errorOccurred (msg : String)
deriving DecidableEq, Repr

/-- A decoded frame as seen by `VideoRecorder::writeFrame`: an abstract id,
its dimensions, and whether the QImage is null. -/
structure Frame where
  id : Nat
  width : Int
  height : Int
  isNull : Bool
deriving DecidableEq, Repr

/-- State of `MCM::VideoRecorder` (Config.cpp). External effects are
recorded in traces: `opens` logs each `cv::VideoWriter::open` attempt as
(filename, fourcc) and `writes` logs each `m_writer.write` as
(frame id, chunk number). The success of each open attempt is an
environment input passed to `rotateChunk`. -/
structure VideoRecorder where
  slotId : Int
  recording : Bool
  outputDirectory : String
  fps : Int
  codec : String
  chunkDurationSeconds : Int
  maxFramesPerChunk : Int
  chunkNumber : Int
  framesInCurrentChunk : Int
  totalFramesWritten : Int
  frameWidth : Int
  frameHeight : Int
  sizeInitialized : Bool
  writerOpen : Bool
  currentFilename : String
  chunkStartTime : String
  events : List RecEvent
  opens : List (String × String)
  writes : List (Nat × Int)
deriving DecidableEq, Repr

/-- `VideoRecorder::VideoRecorder(slotId)` constructor defaults. -/
def mkVideoRecorder (slotId : Int) : VideoRecorder :=
  { slotId := slotId
    recording := false
    outputDirectory := ""
    fps := 30
    codec := ""
    chunkDurationSeconds := 300
    maxFramesPerChunk := 9000
    chunkNumber := 0
    framesInCurrentChunk := 0
    totalFramesWritten := 0
    frameWidth := 0
    frameHeight := 0
    sizeInitialized := false
    writerOpen := false
    currentFilename := ""
    chunkStartTime := ""
    events := []
    opens := []
    writes := [] }

/-- `QString::arg(n, 3, 10, QChar('0'))`: the decimal rendering of `n`
left-padded with zeros to at least 3 characters (chunk numbers are never
negative at the call sites). -/
def zeroPad3 (n : Int) : String :=
  let s := toString n
  if s.length < 3 then String.mk (List.replicate (3 - s.length) (Char.ofNat 48)) ++ s
  else s

/-- `VideoRecorder::generateFilename()`:
`{outputDirectory}/slot_{slotId}/{chunkNumber:03d}_{chunkStartTime}.mp4`.
The QString arg chains are modelled as plain concatenation, which is exact
whenever `outputDirectory` contains no percent place markers of its own;
`chunkStartTime` is the externally produced yyyyMMdd_HHmmss rendering of
`QDateTime::currentDateTime()` taken at rotation time. -/
def generateFilename (s : VideoRecorder) : String :=
  s.outputDirectory ++ "/slot_" ++ toString s.slotId ++ "/" ++ zeroPad3 s.chunkNumber
    ++ "_" ++ s.chunkStartTime ++ ".mp4"

/-- Fourcc chosen by `VideoRecorder::rotateChunk` from the configured codec
(the non-Apple branch; on macOS the `xvid` case also falls back to mp4v). -/
def fourccFor (codec : String) : String :=
  if codec = "h264" || codec = "avc1" then "avc1"
  else if codec = "xvid" then "XVID"
  else "mp4v"

/-- `VideoRecorder::rotateChunk()`: close the current chunk (emitting
`chunkCompleted`), advance the chunk number, take the rotation timestamp,
generate the new filename, try to open the writer with the configured
codec, on failure retry once with the mp4v fallback, and on double failure
emit `errorOccurred` and return with the writer closed (the recording flag
is not touched); on success emit `chunkStarted`. `open1`/`open2` are the
environment results of the two possible open attempts, `now` the rotation
timestamp. -/
def rotateChunk (open1 open2 : Bool) (now : String) (s : VideoRecorder) : VideoRecorder :=
  let s1 :=
    if s.writerOpen then
      { s with
        writerOpen := false
        events := s.events
          ++ (if s.currentFilename ≠ "" then [.chunkCompleted s.chunkNumber s.currentFilename]
              else []) }
    else s
  let s2 :=
    { s1 with
      chunkNumber := s1.chunkNumber + 1
      framesInCurrentChunk := 0
      chunkStartTime := now }
  let s3 := { s2 with currentFilename := generateFilename s2 }
  let s4 :=
    { s3 with
      opens := s3.opens ++ [(s3.currentFilename, fourccFor s3.codec)]
      writerOpen := open1 }
  let s5 :=
    if !s4.writerOpen then
      { s4 with
        opens := s4.opens ++ [(s4.currentFilename, "mp4v")]
        writerOpen := open2 }
    else s4
  if !s5.writerOpen then
    { s5 with
      events := s5.events ++ [.errorOccurred ("Failed to open video writer: " ++ s5.currentFilename)] }
  else
    { s5 with events := s5.events ++ [.chunkStarted s5.chunkNumber s5.currentFilename] }

/-- `VideoRecorder::writeFrame(frame)`: ignores frames when not recording or
null or non-positive-sized; initializes the tracked frame size on the first
valid frame; on a dimension change closes the current chunk; starts or
rotates the chunk when the writer is closed or the per-chunk frame budget
is reached; if the writer could not be opened, returns without writing,
otherwise writes the frame and bumps the counters. (The qImageToMat
conversion of a valid non-null frame is modelled as always succeeding.) -/
def writeFrame (open1 open2 : Bool) (now : String) (s : VideoRecorder)
    (frame : Frame) : VideoRecorder :=
  if !s.recording || frame.isNull then s
  else if frame.width ≤ 0 || frame.height ≤ 0 then s
  else
    let sA :=
      if !s.sizeInitialized then
        { s with
          frameWidth := frame.width
          frameHeight := frame.height
          sizeInitialized := true }
      else s
    let sB :=
      if frame.width ≠ sA.frameWidth || frame.height ≠ sA.frameHeight then
        let sB1 := { sA with frameWidth := frame.width, frameHeight := frame.height }
        if sB1.writerOpen then
          { sB1 with
            writerOpen := false
            events := sB1.events
              ++ (if sB1.currentFilename ≠ ""
                  then [.chunkCompleted sB1.chunkNumber sB1.currentFilename] else []) }
        else sB1
      else sA
    let sC :=
      if !sB.writerOpen || sB.maxFramesPerChunk ≤ sB.framesInCurrentChunk then
        rotateChunk open1 open2 now sB
      else sB
    if !sC.writerOpen then sC
    else
      { sC with
        writes := sC.writes ++ [(frame.id, sC.chunkNumber)]
        framesInCurrentChunk := sC.framesInCurrentChunk + 1
        totalFramesWritten := sC.totalFramesWritten + 1 }

/-- `VideoRecorder::startRecording(outputDirectory, fps, codec,
chunkDurationSeconds)`: idempotent when already recording; stores the
configuration, computes `maxFramesPerChunk = fps * chunkDurationSeconds`,
resets the counters, and fails (emitting `errorOccurred`, not recording)
when the slot directory cannot be created — `dirOk` is the environment
result of `ensureDirectoryExists`. -/
def startRecording (dirOk : Bool) (s : VideoRecorder) (outputDirectory : String)
    (fps : Int) (codec : String) (chunkDurationSeconds : Int) : VideoRecorder × Bool :=
  if s.recording then (s, true)
  else
    let s1 :=
      { s with
        outputDirectory := outputDirectory
        fps := fps
        codec := codec
        chunkDurationSeconds := chunkDurationSeconds
        maxFramesPerChunk := fps * chunkDurationSeconds
        chunkNumber := 0
        framesInCurrentChunk := 0
        totalFramesWritten := 0
        sizeInitialized := false }
    if !dirOk then
      ({ s1 with
          events := s1.events
            ++ [.errorOccurred ("Failed to create output directory: "
                ++ s1.outputDirectory ++ "/slot_" ++ toString s1.slotId)] }, false)
    else ({ s1 with recording := true }, true)

/-- `VideoRecorder::stopRecording()`: clears the recording flag and closes
the current chunk, emitting its `chunkCompleted`. -/
def stopRecording (s : VideoRecorder) : VideoRecorder :=
  if !s.recording then s
  else
    let s1 := { s with recording := false }
    if s1.writerOpen then
      { s1 with
        writerOpen := false
        events := s1.events
          ++ (if s1.currentFilename ≠ "" then [.chunkCompleted s1.chunkNumber s1.currentFilename]
              else []) }
    else s1

/-- The (chunk number, chunk file path) pairs produced by a sequence of
chunk rotations, each driven by its (timestamp, open results) environment. -/
def chunkPaths (s : VideoRecorder) : List (String × Bool × Bool) → List (Int × String)
  | [] => []
  | (now, o1, o2) :: rest =>
    let s1 := rotateChunk o1 o2 now s
    (s1.chunkNumber, s1.currentFilename) :: chunkPaths s1 rest

/-- Deliver a list of frames to `writeFrame` in order. -/
def deliverFrames (open1 open2 : Bool) (now : String) (s : VideoRecorder) :
    List Frame → VideoRecorder
  | [] => s
  | f :: fs => deliverFrames open1 open2 now (writeFrame open1 open2 now s f) fs

/-- `r` consecutive valid frames of fixed size `w × h` whose ids start at `a`. -/
def framesFrom (w h : Int) : Nat → Nat → List Frame
  | _, 0 => []
  | a, r + 1 => ⟨a, w, h, false⟩ :: framesFrom w h (a + 1) r

/-- A whole recording session delivering `N` uniform valid frames (ids
1..N) to a recorder started with fps 30 and 300-second chunks, with all
encoder opens succeeding. -/
def chunkScenario (S : Int) (D codec : String) (o2 : Bool) (now : String)
    (w h : Int) (N : Nat) : VideoRecorder :=
  deliverFrames true o2 now
    (startRecording true (mkVideoRecorder S) D 30 codec 300).1 (framesFrom w h 1 N)

/-- Is this recorder event an `errorOccurred` emission? -/
def RecEvent.isError : RecEvent → Bool
  | .errorOccurred _ => true
  | _ => false

/-- The two alternating `QMediaRecorder` instances of `QtVideoRecorder`. -/
inductive RecId where
  | A
  | B
deriving DecidableEq, Repr

/-- Primitive actions performed by `QtVideoRecorder`, in program order:
recorder configuration, output-location assignment, attaching a recorder to
the capture session (`m_session->setRecorder`), starting and stopping the
media recorders, timer control, and the emitted signals. -/
inductive QtAction where
  | configure (r : RecId)
  | setOutputLocation (r : RecId) (path : String)
  | setSessionRecorder (r : RecId)
  | record (r : RecId)
  | stopRecorder (r : RecId)
  | stopTimer
  | startTimer (ms : Int)
  | emitChunkCompleted (n : Int) (path : String)
  | emitChunkStarted (n : Int) (path : String)
  | emitRecordingStateChanged (b : Bool)
deriving DecidableEq, Repr

/-- Does this action configure, attach or start an encoder (i.e. open a
replacement chunk)? -/
def QtAction.isStartLike : QtAction → Bool
  | QtAction.setSessionRecorder _ => true
  | QtAction.record _ => true
  | QtAction.configure _ => true
  | _ => false

/-- State of the double-buffered `MCM::QtVideoRecorder`: which recorder is
attached to the session, which is active, each recorder's RecordingState,
chunk bookkeeping, and the trace of performed actions. -/
structure QtVideoRecorder where
  slotId : Int
  recording : Bool
  hasSession : Bool
  sessionRecorder : Option RecId
  activeRecorder : Option RecId
  recStateA : Bool
  recStateB : Bool
  chunkNumber : Int
  chunkDurationSeconds : Int
  outputDirectory : String
  currentFilename : String
  chunkStartTime : String
  trace : List QtAction
deriving DecidableEq, Repr

/-- `recorder->recorderState() == QMediaRecorder::RecordingState`. -/
def recState (s : QtVideoRecorder) : RecId → Bool
  | .A => s.recStateA
  | .B => s.recStateB

/-- Effect of `record()` / `stop()` on one recorder's RecordingState. -/
def setRecState (s : QtVideoRecorder) (r : RecId) (b : Bool) : QtVideoRecorder :=
  match r with
  | .A => { s with recStateA := b }
  | .B => { s with recStateB := b }

/-- `QtVideoRecorder::getStandbyRecorder()`: the recorder that is NOT
currently active (defaulting to A when none is active). -/
def getStandbyRecorder (s : QtVideoRecorder) : RecId :=
  if s.activeRecorder = some RecId.A then RecId.B else RecId.A

/-- `QtVideoRecorder::generateFilename()` — same convention as the OpenCV
recorder (see `generateFilename`). -/
def qtGenerateFilename (s : QtVideoRecorder) : String :=
  s.outputDirectory ++ "/slot_" ++ toString s.slotId ++ "/" ++ zeroPad3 s.chunkNumber
    ++ "_" ++ s.chunkStartTime ++ ".mp4"

/-- `QtVideoRecorder::rotateChunk()` (double-buffered): no-op unless
recording with a session; otherwise configure the standby recorder, set its
output location, attach it to the session (which atomically detaches the
old one), mark it active, start it, and only then stop the old recorder and
emit its `chunkCompleted`; finally restart the chunk timer and emit
`chunkStarted`. -/
def qtRotateChunk (now : String) (s : QtVideoRecorder) : QtVideoRecorder :=
  if !s.recording then s
  else if !s.hasSession then s
  else
    let oldRecorder := s.activeRecorder
    let oldFilename := s.currentFilename
    let oldChunkNumber := s.chunkNumber
    let s1 :=
      { s with
        chunkNumber := s.chunkNumber + 1
        chunkStartTime := now }
    let s2 := { s1 with currentFilename := qtGenerateFilename s1 }
    let newRecorder := getStandbyRecorder s2
    let s3 :=
      { s2 with
        trace := s2.trace
          ++ [QtAction.configure newRecorder,
              QtAction.setOutputLocation newRecorder s2.currentFilename,
              QtAction.setSessionRecorder newRecorder]
        sessionRecorder := some newRecorder
        activeRecorder := some newRecorder }
    let s4 := setRecState { s3 with trace := s3.trace ++ [QtAction.record newRecorder] }
      newRecorder true
    let s5 :=
      match oldRecorder with
      | some o =>
        if recState s4 o then
          let sA := setRecState { s4 with trace := s4.trace ++ [QtAction.stopRecorder o] } o false
          if oldFilename ≠ "" then
            { sA with trace := sA.trace ++ [QtAction.emitChunkCompleted oldChunkNumber oldFilename] }
          else sA
        else s4
      | none => s4
    { s5 with
      trace := s5.trace
        ++ [QtAction.startTimer (s5.chunkDurationSeconds * 1000),
            QtAction.emitChunkStarted s5.chunkNumber s5.currentFilename] }

/-- `QtVideoRecorder::stopRecording()`: stop the timer, stop whichever
recorders are recording, emit the final `chunkCompleted`, clear the active
recorder — no replacement chunk is opened. -/
def qtStopRecording (s : QtVideoRecorder) : QtVideoRecorder :=
  if !s.recording then s
  else
    let s1 :=
      { s with
        recording := false
        trace := s.trace ++ [QtAction.stopTimer] }
    let s2 :=
      if s1.recStateA then
        setRecState { s1 with trace := s1.trace ++ [QtAction.stopRecorder RecId.A] } RecId.A false
      else s1
    let s3 :=
      if s2.recStateB then
        setRecState { s2 with trace := s2.trace ++ [QtAction.stopRecorder RecId.B] } RecId.B false
      else s2
    let s4 :=
      if s3.currentFilename ≠ "" then
        { s3 with
          trace := s3.trace ++ [QtAction.emitChunkCompleted s3.chunkNumber s3.currentFilename] }
      else s3
    { s4 with
      activeRecorder := none
      trace := s4.trace ++ [QtAction.emitRecordingStateChanged false] }

/-- The configured source kind of a camera slot. -/
inductive SrcType where
  | noSource
  | rtsp
  | wired
deriving DecidableEq, Repr

/-- Externally visible steps performed by `CameraSlot::startStream` (the Qt
pipeline version): video-item reset, status-label updates, the RTSP or
camera pipeline setup calls, and — for statability of its absence — an
error/Failed event emission, which `startStream` never performs. -/
inductive SlotAction where
  | resetVideoItem
  | updateStatus (label : String)
  | setRtspUrl (url : String)
  | setVideoOutput
  | startRtsp
  | setDeviceIndex (idx : Int)
  | startCamera
  | emitError (msg : String)
deriving DecidableEq, Repr

/-- Is this slot action the emission of a failure/error event? -/
def SlotAction.isError : SlotAction → Bool
  | SlotAction.emitError _ => true
  | _ => false

/-- Is this slot action a native device-open / connect attempt (configuring
the camera device or starting the camera pipeline)? -/
def SlotAction.isConnectAttempt : SlotAction → Bool
  | SlotAction.setDeviceIndex _ => true
  | SlotAction.startCamera => true
  | _ => false

/-- State of one `MCM::CameraSlot` as far as `startStream` observes and
mutates it, plus the trace of performed actions. -/
structure CameraSlot where
  slotIndex : Int
  streaming : Bool
  statusLabel : String
  actions : List SlotAction
deriving DecidableEq, Repr

/-- `CameraSlot::startStream()` (Qt pipeline version): no-op when already
streaming or no source configured; otherwise mark streaming, reset the
video item, show "Connecting...", then either start the RTSP pipeline, or
— for a wired camera — first check the configured device index against the
currently known device list (`QtCameraCapture::availableDevices()`, whose
size is the `availableDevices` input; `cfgDeviceIndex` is the
`slotConfig.source.toInt()` result): an out-of-range index resets
`m_streaming`, shows "No Signal" and returns without any native connect
call and without emitting any error event. -/
def startStream (cfgType : SrcType) (cfgSource : String) (cfgDeviceIndex : Int)
    (availableDevices : Int) (s : CameraSlot) : CameraSlot :=
  if s.streaming then s
  else if cfgType = SrcType.noSource then
    { s with
      statusLabel := "No Signal"
      actions := s.actions ++ [SlotAction.updateStatus "No Signal"] }
  else
    let s1 :=
      { s with
        streaming := true
        statusLabel := "Connecting..."
        actions := s.actions
          ++ [SlotAction.resetVideoItem, SlotAction.updateStatus "Connecting..."] }
    if cfgType = SrcType.rtsp then
      { s1 with
        actions := s1.actions
          ++ [SlotAction.setRtspUrl cfgSource, SlotAction.setVideoOutput,
              SlotAction.startRtsp] }
    else
      if cfgDeviceIndex < 0 ∨ availableDevices ≤ cfgDeviceIndex then
        { s1 with
          streaming := false
          statusLabel := "No Signal"
          actions := s1.actions ++ [SlotAction.updateStatus "No Signal"] }
      else
        { s1 with
          actions := s1.actions
            ++ [SlotAction.setDeviceIndex cfgDeviceIndex, SlotAction.setVideoOutput,
                SlotAction.startCamera] }

/-- Observable events of the `DeviceCapture::run` connect/retry loop: an
`openDevice()` call, the `errorOccurred` emission, a sleep (in
milliseconds; the 20 x 100 ms and 100 x 100 ms wait loops under an
uninterrupted `m_running`), and a successful connection. -/
inductive RetryEvent where
  | attempt
  | emitError
  | sleep (ms : Nat)
  | connected
deriving DecidableEq, Repr

/-- The connect-phase event trace of `DeviceCapture::run`, driven by the
environment outcomes of successive `openDevice()` calls (`true` =
connected) and the current `failedAttempts` counter; the trace ends when a
connection is established (the capture loop follows) and assumes
`m_running` stays true throughout. After 2 consecutive failures the loop
emits an error, waits 10 s and retries once immediately; before that it
waits 2 s between attempts. -/
def deviceRetryTrace : List Bool → Int → List RetryEvent
  | [], _ => []
  | o :: rest, failedAttempts =>
    if o then [RetryEvent.attempt, RetryEvent.connected]
    else if 2 ≤ failedAttempts + 1 then
      RetryEvent.attempt :: RetryEvent.emitError :: RetryEvent.sleep 10000 ::
        (match rest with
         | [] => []
         | o2 :: rest2 =>
           if o2 then [RetryEvent.attempt, RetryEvent.connected]
           else RetryEvent.attempt :: deviceRetryTrace rest2 (failedAttempts + 1))
    else
      RetryEvent.attempt :: RetryEvent.sleep 2000 ::
        deviceRetryTrace rest (failedAttempts + 1)

/-- The accumulated sleep time inserted before each `openDevice()` attempt
of a retry trace (the accumulator carries sleep time seen since the last
attempt). -/
def attemptGaps : List RetryEvent → Nat → List Nat
  | [], _ => []
  | RetryEvent.sleep n :: rest, acc => attemptGaps rest (acc + n)
  | RetryEvent.attempt :: rest, acc => acc :: attemptGaps rest 0
  | RetryEvent.emitError :: rest, acc => attemptGaps rest acc
  | RetryEvent.connected :: rest, acc => attemptGaps rest acc

theorem checkHealthChange_buffer (s : FrameBuffer) (n : Int) :
    (checkHealthChange s n).buffer = s.buffer := by
  unfold checkHealthChange; split <;> rfl

theorem checkHealthChange_maxSize (s : FrameBuffer) (n : Int) :
    (checkHealthChange s n).maxSize = s.maxSize := by
  unfold checkHealthChange; split <;> rfl

theorem checkHealthChange_stopped (s : FrameBuffer) (n : Int) :
    (checkHealthChange s n).stopped = s.stopped := by
  unfold checkHealthChange; split <;> rfl

theorem afterChange_buffer (s : FrameBuffer) (newbuf : List Nat) :
    (afterChange s newbuf).buffer = newbuf := by
  unfold afterChange
  simp [checkHealthChange_buffer]

theorem afterChange_maxSize (s : FrameBuffer) (newbuf : List Nat) :
    (afterChange s newbuf).maxSize = s.maxSize := by
  unfold afterChange
  simp [checkHealthChange_maxSize]

theorem afterChange_stopped (s : FrameBuffer) (newbuf : List Nat) :
    (afterChange s newbuf).stopped = s.stopped := by
  unfold afterChange
  simp [checkHealthChange_stopped]

theorem push_fst_buffer (s : FrameBuffer) (f : Nat) (h : s.stopped = false) :
    (push s f).1.buffer
      = (if s.maxSize ≤ (s.buffer.length : Int) then s.buffer.tail else s.buffer) ++ [f] := by
  unfold push
  simp [h, afterChange_buffer]

theorem push_fst_maxSize (s : FrameBuffer) (f : Nat) :
    (push s f).1.maxSize = s.maxSize := by
  unfold push
  split
  · rfl
  · simp [afterChange_maxSize]

theorem push_fst_stopped (s : FrameBuffer) (f : Nat) :
    (push s f).1.stopped = s.stopped := by
  unfold push
  split
  · rfl
  · simp [afterChange_stopped]

/-- Characterization of a run of pushes: starting from a buffer respecting
the capacity invariant, the contents afterwards are the last `maxSize`
elements of (initial contents ++ pushed frames). -/
theorem pushAll_buffer (fs : List Nat) (s : FrameBuffer)
    (hstop : s.stopped = false) (hcap : 0 < s.maxSize)
    (hlen : (s.buffer.length : Int) ≤ s.maxSize) :
    (pushAll s fs).buffer
      = (s.buffer ++ fs).drop ((s.buffer.length + fs.length) - s.maxSize.toNat) := by
  induction fs generalizing s with
  | nil =>
    have h0 : s.buffer.length - s.maxSize.toNat = 0 := by omega
    simp [pushAll, h0]
  | cons f fs ih =>
    have hs' : (push s f).1.stopped = false := by rw [push_fst_stopped]; exact hstop
    have hm' : (push s f).1.maxSize = s.maxSize := push_fst_maxSize s f
    have hbuf : (push s f).1.buffer
        = (if s.maxSize ≤ (s.buffer.length : Int) then s.buffer.tail else s.buffer) ++ [f] :=
      push_fst_buffer s f hstop
    by_cases hfull : s.maxSize ≤ (s.buffer.length : Int)
    · -- buffer is exactly full: front is dropped before adding
      have hlenEq : s.buffer.length = s.maxSize.toNat := by omega
      have hne : s.buffer ≠ [] := by
        intro hnil
        rw [hnil] at hlenEq
        simp at hlenEq
        omega
      obtain ⟨hd, tl, h⟩ := List.exists_cons_of_ne_nil hne
      have hbuf' : (push s f).1.buffer = tl ++ [f] := by
        rw [hbuf, if_pos hfull, h]; rfl
      rw [h] at hlenEq
      simp only [List.length_cons] at hlenEq
      have hlen' : ((push s f).1.buffer.length : Int) ≤ (push s f).1.maxSize := by
        rw [hbuf', hm']
        simp only [List.length_append, List.length_cons, List.length_nil]
        omega
      rw [pushAll, ih (push s f).1 hs' (by rw [hm']; exact hcap) hlen', hbuf', hm', h]
      have hA : (tl ++ [f]).length + fs.length - s.maxSize.toNat = fs.length := by
        simp only [List.length_append, List.length_cons, List.length_nil]
        omega
      have hB : (hd :: tl).length + (f :: fs).length - s.maxSize.toNat = fs.length + 1 := by
        simp only [List.length_cons]
        omega
      rw [hA, hB, List.cons_append, List.drop_succ_cons, List.append_assoc,
        List.singleton_append]
    · -- buffer has room: frame is just appended
      have hbuf' : (push s f).1.buffer = s.buffer ++ [f] := by
        rw [hbuf, if_neg hfull]
      have hlen' : ((push s f).1.buffer.length : Int) ≤ (push s f).1.maxSize := by
        rw [hbuf', hm']
        simp only [List.length_append, List.length_cons, List.length_nil]
        push_cast
        omega
      rw [pushAll, ih (push s f).1 hs' (by rw [hm']; exact hcap) hlen', hbuf', hm']
      have hA : (s.buffer ++ [f]).length + fs.length - s.maxSize.toNat
          = s.buffer.length + (f :: fs).length - s.maxSize.toNat := by
        simp only [List.length_append, List.length_cons, List.length_nil]
        omega
      rw [hA, List.append_assoc, List.singleton_append]

theorem pushAll_maxSize (fs : List Nat) (s : FrameBuffer) :
    (pushAll s fs).maxSize = s.maxSize := by
  induction fs generalizing s with
  | nil => rfl
  | cons f fs ih => rw [pushAll, ih, push_fst_maxSize]

/-- Claim C1: for every `FrameBuffer` of positive capacity and every sequence
of `push` calls (no intervening `setMaxSize`), the retained contents are
exactly the most recently pushed frames in push order (drop-oldest), the
buffer never holds more than `maxSize` frames, and `0 ≤ size ≤ maxSize`
holds after every prefix of the sequence. -/
theorem frameBuffer_push_bounded_drop_oldest (cap minM : Int) (hcap : 0 < cap)
    (fs : List Nat) :
    (pushAll (mkFrameBuffer cap minM) fs).buffer = fs.drop (fs.length - cap.toNat)
    ∧ (pushAll (mkFrameBuffer cap minM) fs).buffer.length ≤ cap.toNat
    ∧ ∀ pfx : List Nat, pfx <+: fs →
        ((pushAll (mkFrameBuffer cap minM) pfx).buffer.length : Int) ≤ cap := by
  have base : ∀ gs : List Nat,
      (pushAll (mkFrameBuffer cap minM) gs).buffer = gs.drop (gs.length - cap.toNat) := by
    intro gs
    have := pushAll_buffer gs (mkFrameBuffer cap minM) rfl hcap
      (by simp only [mkFrameBuffer, List.length_nil, Int.ofNat_zero, Nat.cast_zero]; omega)
    simpa [mkFrameBuffer] using this
  refine ⟨base fs, ?_, ?_⟩
  · rw [base fs, List.length_drop]
    omega
  · intro pfx _
    rw [base pfx, List.length_drop]
    have : pfx.length - (pfx.length - cap.toNat) ≤ cap.toNat := by omega
    omega

/-- Witness for C1 at capacity 2 with three pushed frames: the retained
frames are the last two pushed, in order. -/
theorem frameBuffer_push_bounded_drop_oldest_witness :
    ((pushAll (mkFrameBuffer 2 1) [10, 20, 30]).buffer
        = [10, 20, 30].drop ([10, 20, 30].length - (2 : Int).toNat)
      ∧ (pushAll (mkFrameBuffer 2 1) [10, 20, 30]).buffer.length ≤ (2 : Int).toNat
      ∧ ∀ pfx : List Nat, pfx <+: [10, 20, 30] →
          ((pushAll (mkFrameBuffer 2 1) pfx).buffer.length : Int) ≤ 2)
    ∧ (pushAll (mkFrameBuffer 2 1) [10, 20, 30]).buffer = [20, 30] :=
  ⟨frameBuffer_push_bounded_drop_oldest 2 1 (by norm_num) [10, 20, 30], by decide⟩

theorem checkHealthChange_wasHealthy (s : FrameBuffer) (n : Int) :
    (checkHealthChange s n).wasHealthy = (s.wasHealthy || decide (5 ≤ n)) := by
  unfold checkHealthChange
  by_cases h : s.wasHealthy <;> by_cases h5 : 5 ≤ n <;> simp [h, h5]

theorem checkHealthChange_count_true (s : FrameBuffer) (n : Int) :
    (checkHealthChange s n).events.count (BufEvent.healthChanged true)
      = s.events.count (BufEvent.healthChanged true)
        + (if s.wasHealthy = false ∧ 5 ≤ n then 1 else 0) := by
  unfold checkHealthChange
  by_cases h : s.wasHealthy <;> by_cases h5 : 5 ≤ n <;>
    simp [h, h5, List.count_append]

theorem checkHealthChange_count_false (s : FrameBuffer) (n : Int) :
    (checkHealthChange s n).events.count (BufEvent.healthChanged false)
      = s.events.count (BufEvent.healthChanged false) := by
  unfold checkHealthChange
  split
  · simp [List.count_append]
  · rfl

theorem fiveLe_cast (m : Nat) : ((5 : Int) ≤ (m : Int)) ↔ 5 ≤ m := by
  exact_mod_cast Iff.rfl

theorem afterChange_wasHealthy (s : FrameBuffer) (newbuf : List Nat) :
    (afterChange s newbuf).wasHealthy = (s.wasHealthy || decide (5 ≤ newbuf.length)) := by
  unfold afterChange
  simp only [checkHealthChange_wasHealthy]
  congr 1
  simp [decide_eq_decide, fiveLe_cast]

theorem afterChange_count_true (s : FrameBuffer) (newbuf : List Nat) :
    (afterChange s newbuf).events.count (BufEvent.healthChanged true)
      = s.events.count (BufEvent.healthChanged true)
        + (if s.wasHealthy = false ∧ 5 ≤ newbuf.length then 1 else 0) := by
  unfold afterChange
  simp only [List.count_append, checkHealthChange_count_true]
  have h1 : (([BufEvent.sizeChanged (newbuf.length : Int)]).count (BufEvent.healthChanged true)) = 0 := by
    simp
  rw [h1]
  have h2 : (s.wasHealthy = false ∧ (5 : Int) ≤ (newbuf.length : Int))
      ↔ (s.wasHealthy = false ∧ 5 ≤ newbuf.length) := by
    rw [fiveLe_cast]
  simp [h2]

theorem afterChange_count_false (s : FrameBuffer) (newbuf : List Nat) :
    (afterChange s newbuf).events.count (BufEvent.healthChanged false)
      = s.events.count (BufEvent.healthChanged false) := by
  unfold afterChange
  simp only [List.count_append, checkHealthChange_count_false]
  simp

/-- A single `push`/`pop`/`tryPop` never makes a healthy buffer unhealthy. -/
theorem applyOp_keeps_health (s : FrameBuffer) (o : BufOp) (h : s.wasHealthy = true) :
    (applyOp s o).wasHealthy = true := by
  cases o with
  | push f =>
    simp only [applyOp]
    unfold push
    by_cases hs : s.stopped <;> simp [hs, afterChange_wasHealthy, h]
  | pop =>
    simp only [applyOp]
    unfold pop
    cases hb : s.buffer with
    | nil => simp [hb, h]
    | cons f rest =>
      by_cases hs : s.stopped <;> simp [hb, hs, afterChange_wasHealthy, h]
  | tryPop =>
    simp only [applyOp]
    unfold tryPop
    cases hb : s.buffer with
    | nil => simp [hb, h]
    | cons f rest => simp [hb, afterChange_wasHealthy, h]

/-- A single `push`/`pop`/`tryPop` never emits `healthChanged(false)`. -/
theorem applyOp_count_health_false (s : FrameBuffer) (o : BufOp) :
    (applyOp s o).events.count (BufEvent.healthChanged false)
      = s.events.count (BufEvent.healthChanged false) := by
  cases o with
  | push f =>
    simp only [applyOp]
    unfold push
    by_cases hs : s.stopped
    · simp [hs]
    · simp [hs, afterChange_count_false]
  | pop =>
    simp only [applyOp]
    unfold pop
    cases hb : s.buffer with
    | nil => simp [hb]
    | cons f rest =>
      by_cases hs : s.stopped <;> simp [hb, hs, afterChange_count_false]
  | tryPop =>
    simp only [applyOp]
    unfold tryPop
    cases hb : s.buffer with
    | nil => simp [hb]
    | cons f rest => simp [hb, afterChange_count_false]

/-- One step of the health state machine, starting from a reachable state:
the stopped flag is untouched, a still-unhealthy buffer holds fewer than
`STARTUP_THRESHOLD = 5` frames, the latch fires exactly on reaching size 5,
and `healthChanged(true)` is emitted exactly at that transition. -/
theorem applyOp_health_step (s : FrameBuffer) (o : BufOp)
    (hstop : s.stopped = false) (hinv : s.wasHealthy = false → s.buffer.length < 5) :
    (applyOp s o).stopped = false
    ∧ ((applyOp s o).wasHealthy = false → (applyOp s o).buffer.length < 5)
    ∧ (applyOp s o).wasHealthy = (s.wasHealthy || decide (5 ≤ (applyOp s o).buffer.length))
    ∧ (applyOp s o).events.count (BufEvent.healthChanged true)
        = s.events.count (BufEvent.healthChanged true)
          + (if s.wasHealthy = false ∧ 5 ≤ (applyOp s o).buffer.length then 1 else 0) := by
  have main : ∀ newbuf : List Nat,
      (afterChange s newbuf).stopped = false
      ∧ ((afterChange s newbuf).wasHealthy = false → (afterChange s newbuf).buffer.length < 5)
      ∧ (afterChange s newbuf).wasHealthy
          = (s.wasHealthy || decide (5 ≤ (afterChange s newbuf).buffer.length))
      ∧ (afterChange s newbuf).events.count (BufEvent.healthChanged true)
          = s.events.count (BufEvent.healthChanged true)
            + (if s.wasHealthy = false ∧ 5 ≤ (afterChange s newbuf).buffer.length
                then 1 else 0) := by
    intro newbuf
    refine ⟨?_, ?_, ?_, ?_⟩
    · rw [afterChange_stopped]; exact hstop
    · intro hw
      rw [afterChange_wasHealthy] at hw
      rw [afterChange_buffer]
      simp only [Bool.or_eq_false_iff, decide_eq_false_iff_not] at hw
      omega
    · rw [afterChange_wasHealthy, afterChange_buffer]
    · rw [afterChange_count_true, afterChange_buffer]
  have noop : s.stopped = false
      ∧ (s.wasHealthy = false → s.buffer.length < 5)
      ∧ s.wasHealthy = (s.wasHealthy || decide (5 ≤ s.buffer.length))
      ∧ s.events.count (BufEvent.healthChanged true)
          = s.events.count (BufEvent.healthChanged true)
            + (if s.wasHealthy = false ∧ 5 ≤ s.buffer.length then 1 else 0) := by
    refine ⟨hstop, hinv, ?_, ?_⟩
    · by_cases hw : s.wasHealthy
      · simp [hw]
      · have := hinv (by simp [hw])
        simp only [Bool.not_eq_true] at hw
        have h5 : ¬ 5 ≤ s.buffer.length := by omega
        simp [hw, h5]
    · by_cases hw : s.wasHealthy
      · simp [hw]
      · have := hinv (by simp [hw])
        have h5 : ¬ 5 ≤ s.buffer.length := by omega
        simp [h5]
  cases o with
  | push f =>
    have hred : push s f
        = (afterChange s ((if s.maxSize ≤ (s.buffer.length : Int)
            then s.buffer.tail else s.buffer) ++ [f]), true) := by
      unfold push
      rw [if_neg (by simp [hstop])]
    simp only [applyOp, hred]
    exact main _
  | pop =>
    cases hb : s.buffer with
    | nil =>
      have hred : pop s = (s, none) := by
        unfold pop
        rw [if_pos (by simp [hstop, hb])]
      simp only [applyOp, hred]
      simpa [hb] using noop
    | cons f rest =>
      have hred : pop s = (afterChange s rest, some f) := by
        unfold pop
        rw [if_neg (by simp [hstop, hb]), hb]
      simp only [applyOp, hred]
      exact main rest
  | tryPop =>
    cases hb : s.buffer with
    | nil =>
      have hred : tryPop s = (s, none) := by
        unfold tryPop
        rw [hb]
      simp only [applyOp, hred]
      simpa [hb] using noop
    | cons f rest =>
      have hred : tryPop s = (afterChange s rest, some f) := by
        unfold tryPop
        rw [hb]
      simp only [applyOp, hred]
      exact main rest

/-- Over a run from a reachable state, the health latch is set exactly when
some post-operation size reaches the startup threshold 5, and
`healthChanged(true)` is emitted exactly once at that point. -/
theorem runOps_health (ops : List BufOp) (s : FrameBuffer)
    (hstop : s.stopped = false) (hinv : s.wasHealthy = false → s.buffer.length < 5) :
    (runOps s ops).wasHealthy
        = (s.wasHealthy || (sizeTrace s ops).any (fun n => decide (5 ≤ n)))
    ∧ (runOps s ops).events.count (BufEvent.healthChanged true)
        = s.events.count (BufEvent.healthChanged true)
          + (if s.wasHealthy = false
                ∧ (sizeTrace s ops).any (fun n => decide (5 ≤ n)) = true then 1 else 0) := by
  induction ops generalizing s with
  | nil => simp [runOps, sizeTrace]
  | cons o os ih =>
    obtain ⟨h1, h2, h3, h4⟩ := applyOp_health_step s o hstop hinv
    obtain ⟨ih1, ih2⟩ := ih (applyOp s o) h1 h2
    simp only [runOps, sizeTrace, List.any_cons]
    constructor
    · rw [ih1, h3, Bool.or_assoc]
    · rw [ih2, h4, h3]
      by_cases hc : 5 ≤ (applyOp s o).buffer.length <;>
        cases hw : s.wasHealthy <;>
          by_cases ha : ((sizeTrace (applyOp s o) os).any fun n => decide (5 ≤ n)) = true <;>
            simp [hw, hc, ha]

/-- A run of `push`/`pop`/`tryPop` operations never clears the health latch. -/
theorem runOps_keeps_health (ops : List BufOp) (s : FrameBuffer)
    (h : s.wasHealthy = true) : (runOps s ops).wasHealthy = true := by
  induction ops generalizing s with
  | nil => exact h
  | cons o os ih => exact ih (applyOp s o) (applyOp_keeps_health s o h)

/-- A run of `push`/`pop`/`tryPop` operations never emits `healthChanged(false)`. -/
theorem runOps_count_health_false (ops : List BufOp) (s : FrameBuffer) :
    (runOps s ops).events.count (BufEvent.healthChanged false)
      = s.events.count (BufEvent.healthChanged false) := by
  induction ops generalizing s with
  | nil => rfl
  | cons o os ih =>
    rw [runOps, ih (applyOp s o), applyOp_count_health_false]

/-- Claim C2 (amended): once the latched health flag `m_wasHealthy` (which
drives the `healthChanged` signal) is true, it stays true and no
`healthChanged(false)` is emitted across any `pop`/`tryPop`/`push` sequence
without `clear()`/`reset()`; however the `isHealthy()` accessor reports
`size >= m_minMaintenance` once latched, so in the capacity-30/floor-5
scenario, after pushing 5 frames and popping all 5 the buffer is empty, the
latch is still true, and `isHealthy()` reports false (not true as claimed). -/
theorem frameBuffer_health_latched_amended (s : FrameBuffer) (ops : List BufOp)
    (h : s.wasHealthy = true) :
    (runOps s ops).wasHealthy = true
    ∧ (runOps s ops).events.count (BufEvent.healthChanged false)
        = s.events.count (BufEvent.healthChanged false)
    ∧ (runOps (mkFrameBuffer 30 5)
          (List.replicate 5 (BufOp.push 0) ++ List.replicate 5 BufOp.pop)).buffer = []
    ∧ (runOps (mkFrameBuffer 30 5)
          (List.replicate 5 (BufOp.push 0) ++ List.replicate 5 BufOp.pop)).wasHealthy = true
    ∧ isHealthy (runOps (mkFrameBuffer 30 5)
          (List.replicate 5 (BufOp.push 0) ++ List.replicate 5 BufOp.pop)) = false :=
  ⟨runOps_keeps_health ops s h, runOps_count_health_false ops s,
    by decide, by decide, by decide⟩

/-- Witness for the amended C2 at a latched two-frame buffer drained by a
`pop` and a `tryPop`. -/
theorem frameBuffer_health_latched_amended_witness :
    (runOps (⟨[1, 2], 30, 5, false, true, []⟩ : FrameBuffer)
        [BufOp.pop, BufOp.tryPop]).wasHealthy = true
    ∧ (runOps (⟨[1, 2], 30, 5, false, true, []⟩ : FrameBuffer)
        [BufOp.pop, BufOp.tryPop]).events.count (BufEvent.healthChanged false)
        = (⟨[1, 2], 30, 5, false, true, []⟩ : FrameBuffer).events.count
            (BufEvent.healthChanged false) := by
  have h := frameBuffer_health_latched_amended
    (⟨[1, 2], 30, 5, false, true, []⟩ : FrameBuffer) [BufOp.pop, BufOp.tryPop] rfl
  exact ⟨h.1, h.2.1⟩

/-- Counterexample to C2 as stated: with capacity 30 and floor 5, push 5
frames then pop all 5; the buffer is empty and `isHealthy()` reports
`false`, while the claim asserts it still reports `true`. -/
theorem frameBuffer_isHealthy_empty_counterexample :
    (runOps (mkFrameBuffer 30 5)
        (List.replicate 5 (BufOp.push 0) ++ List.replicate 5 BufOp.pop)).buffer = []
    ∧ isHealthy (runOps (mkFrameBuffer 30 5)
        (List.replicate 5 (BufOp.push 0) ++ List.replicate 5 BufOp.pop)) = false := by
  decide

/-- Claim C3 (amended): the `healthChanged(true)` transition is governed by
the hardcoded startup threshold `STARTUP_THRESHOLD = 5`, independent of the
configured `minMaintenance`: starting from a freshly constructed buffer, the
latch is set after a run of operations exactly when some post-operation size
reached 5, and `healthChanged(true)` is emitted exactly once, at the first
such operation (apply the theorem to each prefix), never while the size has
stayed below 5. -/
theorem frameBuffer_health_transition_startup_threshold (cap minM : Int)
    (ops : List BufOp) :
    (runOps (mkFrameBuffer cap minM) ops).wasHealthy
        = (sizeTrace (mkFrameBuffer cap minM) ops).any (fun n => decide (5 ≤ n))
    ∧ (runOps (mkFrameBuffer cap minM) ops).events.count (BufEvent.healthChanged true)
        = (if (sizeTrace (mkFrameBuffer cap minM) ops).any (fun n => decide (5 ≤ n)) = true
            then 1 else 0) := by
  obtain ⟨h1, h2⟩ := runOps_health ops (mkFrameBuffer cap minM) rfl
    (by intro _; simp [mkFrameBuffer])
  constructor
  · simpa [mkFrameBuffer] using h1
  · simpa [mkFrameBuffer] using h2

/-- Counterexample to C3 as stated: a buffer constructed with
`minMaintenance = 10` (the configured floor) fires `healthChanged(true)`
already at size 5, i.e. while the size is strictly below the configured
floor, because the transition uses the hardcoded startup threshold 5. -/
theorem frameBuffer_health_floor_counterexample :
    (runOps (mkFrameBuffer 30 10) (List.replicate 5 (BufOp.push 0))).wasHealthy = true
    ∧ (runOps (mkFrameBuffer 30 10) (List.replicate 5 (BufOp.push 0))).events.count
        (BufEvent.healthChanged true) = 1
    ∧ (runOps (mkFrameBuffer 30 10) (List.replicate 5 (BufOp.push 0))).buffer.length = 5 := by
  decide

/-- Claim C10: on a stopped buffer that still holds frames, `tryPop` returns
and removes the oldest frame exactly as if the buffer were not stopped,
while `pop` returns a null image leaving the state unchanged and `push`
returns false leaving the state unchanged. -/
theorem frameBuffer_stopped_tryPop_drains (s : FrameBuffer) (f g : Nat)
    (rest : List Nat) (hstop : s.stopped = true) (hbuf : s.buffer = f :: rest) :
    (tryPop s).2 = some f
    ∧ (tryPop s).1.buffer = rest
    ∧ (tryPop s).2 = (tryPop { s with stopped := false }).2
    ∧ (tryPop s).1 = { (tryPop { s with stopped := false }).1 with stopped := true }
    ∧ pop s = (s, none)
    ∧ push s g = (s, false) := by
  cases s with
  | mk buf mx mn st wh ev =>
    simp only at hstop hbuf
    subst hstop hbuf
    by_cases h5 : wh = false ∧ 5 ≤ rest.length <;>
      refine ⟨?_, ?_, ?_, ?_, ?_, ?_⟩ <;>
        simp [tryPop, pop, push, afterChange, checkHealthChange, h5]

/-- Witness for C10 at a stopped two-frame buffer. -/
theorem frameBuffer_stopped_tryPop_drains_witness :
    (tryPop (⟨[7, 8], 3, 1, true, true, []⟩ : FrameBuffer)).2 = some 7
    ∧ (tryPop (⟨[7, 8], 3, 1, true, true, []⟩ : FrameBuffer)).1.buffer = [8]
    ∧ pop (⟨[7, 8], 3, 1, true, true, []⟩ : FrameBuffer)
        = (⟨[7, 8], 3, 1, true, true, []⟩, none)
    ∧ push (⟨[7, 8], 3, 1, true, true, []⟩ : FrameBuffer) 9
        = (⟨[7, 8], 3, 1, true, true, []⟩, false) := by
  have h := frameBuffer_stopped_tryPop_drains
    (⟨[7, 8], 3, 1, true, true, []⟩ : FrameBuffer) 7 9 [8] rfl rfl
  exact ⟨h.1, h.2.1, h.2.2.2.2.1, h.2.2.2.2.2⟩

theorem rotateChunk_fields (o1 o2 : Bool) (now : String) (s : VideoRecorder) :
    (rotateChunk o1 o2 now s).chunkNumber = s.chunkNumber + 1
    ∧ (rotateChunk o1 o2 now s).outputDirectory = s.outputDirectory
    ∧ (rotateChunk o1 o2 now s).slotId = s.slotId
    ∧ (rotateChunk o1 o2 now s).codec = s.codec
    ∧ (rotateChunk o1 o2 now s).recording = s.recording
    ∧ (rotateChunk o1 o2 now s).maxFramesPerChunk = s.maxFramesPerChunk
    ∧ (rotateChunk o1 o2 now s).framesInCurrentChunk = 0
    ∧ (rotateChunk o1 o2 now s).writerOpen = (o1 || o2)
    ∧ (rotateChunk o1 o2 now s).currentFilename
        = s.outputDirectory ++ "/slot_" ++ toString s.slotId ++ "/"
          ++ zeroPad3 (s.chunkNumber + 1) ++ "_" ++ now ++ ".mp4" := by
  unfold rotateChunk generateFilename
  by_cases hw : s.writerOpen <;> by_cases ho1 : o1 <;> by_cases ho2 : o2 <;>
    simp [hw, ho1, ho2]

theorem chunkPaths_length (envs : List (String × Bool × Bool)) (s : VideoRecorder) :
    (chunkPaths s envs).length = envs.length := by
  induction envs generalizing s with
  | nil => rfl
  | cons e rest ih =>
    obtain ⟨now, o1, o2⟩ := e
    simp [chunkPaths, ih]

/-- Each rotation produces chunk number `chunkNumber + i + 1` and the
corresponding conventional path. -/
theorem chunkPaths_formula (envs : List (String × Bool × Bool)) (s : VideoRecorder)
    (i : Nat) (now : String) (o1 o2 : Bool) (henv : envs[i]? = some (now, o1, o2)) :
    (chunkPaths s envs)[i]? = some (s.chunkNumber + (i : Int) + 1,
      s.outputDirectory ++ "/slot_" ++ toString s.slotId ++ "/"
        ++ zeroPad3 (s.chunkNumber + (i : Int) + 1) ++ "_" ++ now ++ ".mp4") := by
  induction envs generalizing s i with
  | nil => simp at henv
  | cons e rest ih =>
    obtain ⟨now0, p1, p2⟩ := e
    obtain ⟨hn, hdir, hslot, -, -, -, -, -, hfile⟩ :=
      rotateChunk_fields p1 p2 now0 s
    cases i with
    | zero =>
      simp only [List.getElem?_cons_zero, Option.some_inj, Prod.mk.injEq] at henv
      obtain ⟨h1, h2, h3⟩ := henv
      subst h1 h2 h3
      simp only [chunkPaths, List.getElem?_cons_zero, Option.some_inj]
      rw [hn, hfile]
      norm_num
    | succ j =>
      simp only [List.getElem?_cons_succ] at henv
      simp only [chunkPaths, List.getElem?_cons_succ]
      have := ih (rotateChunk p1 p2 now0 s) j henv
      rw [this, hn, hdir, hslot]
      have harg : s.chunkNumber + 1 + (j : Int) + 1 = s.chunkNumber + ((j + 1 : Nat) : Int) + 1 := by
        push_cast
        ring
      rw [harg]

/-- Every produced chunk number exceeds the recorder's current counter. -/
theorem chunkPaths_fst_gt (envs : List (String × Bool × Bool)) (s : VideoRecorder) :
    ∀ p ∈ chunkPaths s envs, s.chunkNumber < p.1 := by
  induction envs generalizing s with
  | nil => intro p hp; simp [chunkPaths] at hp
  | cons e rest ih =>
    obtain ⟨now0, p1, p2⟩ := e
    intro p hp
    obtain ⟨hn, -⟩ := rotateChunk_fields p1 p2 now0 s
    simp only [chunkPaths, List.mem_cons] at hp
    rcases hp with h | h
    · rw [h]
      simp [hn]
    · have := ih (rotateChunk p1 p2 now0 s) p h
      rw [hn] at this
      omega

/-- Chunk numbers are strictly increasing along a session, never reused. -/
theorem chunkPaths_strict_increasing (envs : List (String × Bool × Bool))
    (s : VideoRecorder) :
    List.Pairwise (fun a b => a.1 < b.1) (chunkPaths s envs) := by
  induction envs generalizing s with
  | nil => exact List.Pairwise.nil
  | cons e rest ih =>
    obtain ⟨now0, p1, p2⟩ := e
    obtain ⟨hn, -⟩ := rotateChunk_fields p1 p2 now0 s
    refine List.Pairwise.cons ?_ (ih (rotateChunk p1 p2 now0 s))
    intro b hb
    have := chunkPaths_fst_gt rest (rotateChunk p1 p2 now0 s) b hb
    rw [hn] at this
    simp only [hn]
    omega

/-- Claim C5: every chunk file path of a recording session for slot `S`
equals `{outputDirectory}/slot_{S}/{chunkNumber:03d}_{timestamp}.mp4`, with
the chunk number starting at 1 for the session's first chunk and strictly
increasing (never reused) across successive chunks. -/
theorem videoRecorder_filename_convention (D : String) (S fps dur : Int)
    (codec : String) (envs : List (String × Bool × Bool)) (i : Nat)
    (now : String) (o1 o2 : Bool) (henv : envs[i]? = some (now, o1, o2)) :
    (chunkPaths (startRecording true (mkVideoRecorder S) D fps codec dur).1 envs)[i]?
        = some ((i : Int) + 1,
            D ++ "/slot_" ++ toString S ++ "/" ++ zeroPad3 ((i : Int) + 1)
              ++ "_" ++ now ++ ".mp4")
    ∧ List.Pairwise (fun a b => a.1 < b.1)
        (chunkPaths (startRecording true (mkVideoRecorder S) D fps codec dur).1 envs)
    ∧ (chunkPaths (startRecording true (mkVideoRecorder S) D fps codec dur).1 envs).length
        = envs.length := by
  have hfields : (startRecording true (mkVideoRecorder S) D fps codec dur).1.chunkNumber = 0
      ∧ (startRecording true (mkVideoRecorder S) D fps codec dur).1.outputDirectory = D
      ∧ (startRecording true (mkVideoRecorder S) D fps codec dur).1.slotId = S := by
    simp [startRecording, mkVideoRecorder]
  obtain ⟨h0, hD, hS⟩ := hfields
  refine ⟨?_, chunkPaths_strict_increasing envs _, chunkPaths_length envs _⟩
  have := chunkPaths_formula envs
    (startRecording true (mkVideoRecorder S) D fps codec dur).1 i now o1 o2 henv
  rw [this, h0, hD, hS]
  norm_num

/-- Witness for C5: one rotation on slot 2 yields chunk 1 at the
conventional zero-padded path. -/
theorem videoRecorder_filename_convention_witness :
    ((chunkPaths (startRecording true (mkVideoRecorder 2) "/tmp/rec" 30 "mp4v" 300).1
        [("20260101_000000", true, true)])[0]?
      = some ((0 : Int) + 1,
          "/tmp/rec" ++ "/slot_" ++ toString (2 : Int) ++ "/" ++ zeroPad3 ((0 : Int) + 1)
            ++ "_" ++ "20260101_000000" ++ ".mp4")
    ∧ List.Pairwise (fun a b => a.1 < b.1)
        (chunkPaths (startRecording true (mkVideoRecorder 2) "/tmp/rec" 30 "mp4v" 300).1
          [("20260101_000000", true, true)])
    ∧ (chunkPaths (startRecording true (mkVideoRecorder 2) "/tmp/rec" 30 "mp4v" 300).1
        [("20260101_000000", true, true)]).length = 1)
    ∧ (chunkPaths (startRecording true (mkVideoRecorder 2) "/tmp/rec" 30 "mp4v" 300).1
        [("20260101_000000", true, true)]).map Prod.snd
      = ["/tmp/rec/slot_2/001_20260101_000000.mp4"] :=
  ⟨videoRecorder_filename_convention "/tmp/rec" 2 30 300 "mp4v"
      [("20260101_000000", true, true)] 0 "20260101_000000" true true rfl,
    by decide⟩

theorem rotateChunk_preserved (o1 o2 : Bool) (now : String) (s : VideoRecorder) :
    (rotateChunk o1 o2 now s).sizeInitialized = s.sizeInitialized
    ∧ (rotateChunk o1 o2 now s).frameWidth = s.frameWidth
    ∧ (rotateChunk o1 o2 now s).frameHeight = s.frameHeight
    ∧ (rotateChunk o1 o2 now s).writes = s.writes
    ∧ (rotateChunk o1 o2 now s).totalFramesWritten = s.totalFramesWritten := by
  unfold rotateChunk
  by_cases hw : s.writerOpen <;> by_cases ho1 : o1 <;> by_cases ho2 : o2 <;>
    simp [hw, ho1, ho2]

/-- `writeFrame` on a valid frame matching an already-initialized, open,
recording state reduces to: rotate when the per-chunk budget is reached,
then write when the writer is open. -/
theorem writeFrame_reduces (s : VideoRecorder) (fid : Nat) (w h : Int)
    (o1 o2 : Bool) (now : String) (hw : 0 < w) (hh : 0 < h)
    (h1 : s.recording = true) (h2 : s.sizeInitialized = true)
    (h3 : s.frameWidth = w) (h4 : s.frameHeight = h) (h5 : s.writerOpen = true) :
    writeFrame o1 o2 now s ⟨fid, w, h, false⟩
      = (if s.maxFramesPerChunk ≤ s.framesInCurrentChunk then
          (if (rotateChunk o1 o2 now s).writerOpen then
            { rotateChunk o1 o2 now s with
              writes := (rotateChunk o1 o2 now s).writes
                ++ [(fid, (rotateChunk o1 o2 now s).chunkNumber)]
              framesInCurrentChunk := (rotateChunk o1 o2 now s).framesInCurrentChunk + 1
              totalFramesWritten := (rotateChunk o1 o2 now s).totalFramesWritten + 1 }
          else rotateChunk o1 o2 now s)
        else
          { s with
            writes := s.writes ++ [(fid, s.chunkNumber)]
            framesInCurrentChunk := s.framesInCurrentChunk + 1
            totalFramesWritten := s.totalFramesWritten + 1 }) := by
  have hnw : ¬ (w ≤ 0) := by omega
  have hnh : ¬ (h ≤ 0) := by omega
  unfold writeFrame
  rw [if_neg (by simp [h1])]
  rw [if_neg (by simp [hnw, hnh])]
  simp only [h2, h3, h4, Bool.not_true, Bool.false_eq_true, if_false, ne_eq,
    eq_self_iff_true, not_true, decide_False, Bool.or_self, Bool.false_or, h5]
  by_cases hrot : s.maxFramesPerChunk ≤ s.framesInCurrentChunk <;>
    by_cases hoo : (rotateChunk o1 o2 now s).writerOpen <;>
      simp [hrot, hoo, h5, h2, h3, h4]

/-- One `writeFrame` step of the uniform-frame session: frame `k+1` lands in
chunk `k / 9000 + 1` and the counters advance as expected. -/
theorem writeFrame_step (s : VideoRecorder) (k : Nat) (w h : Int) (o2 : Bool)
    (now : String) (hw : 0 < w) (hh : 0 < h) (hk : 1 ≤ k)
    (h1 : s.recording = true) (h2 : s.sizeInitialized = true)
    (h3 : s.frameWidth = w) (h4 : s.frameHeight = h)
    (h5 : s.writerOpen = true) (h6 : s.maxFramesPerChunk = 9000)
    (h7 : s.chunkNumber = (((k - 1) / 9000 : Nat) : Int) + 1)
    (h8 : s.framesInCurrentChunk = (((k - 1) % 9000 : Nat) : Int) + 1)
    (h9 : s.writes = (List.range k).map (fun j => (j + 1, ((j / 9000 : Nat) : Int) + 1))) :
    (writeFrame true o2 now s ⟨k + 1, w, h, false⟩).recording = true
    ∧ (writeFrame true o2 now s ⟨k + 1, w, h, false⟩).sizeInitialized = true
    ∧ (writeFrame true o2 now s ⟨k + 1, w, h, false⟩).frameWidth = w
    ∧ (writeFrame true o2 now s ⟨k + 1, w, h, false⟩).frameHeight = h
    ∧ (writeFrame true o2 now s ⟨k + 1, w, h, false⟩).writerOpen = true
    ∧ (writeFrame true o2 now s ⟨k + 1, w, h, false⟩).maxFramesPerChunk = 9000
    ∧ (writeFrame true o2 now s ⟨k + 1, w, h, false⟩).chunkNumber
        = ((k / 9000 : Nat) : Int) + 1
    ∧ (writeFrame true o2 now s ⟨k + 1, w, h, false⟩).framesInCurrentChunk
        = ((k % 9000 : Nat) : Int) + 1
    ∧ (writeFrame true o2 now s ⟨k + 1, w, h, false⟩).writes
        = (List.range (k + 1)).map (fun j => (j + 1, ((j / 9000 : Nat) : Int) + 1)) := by
  rw [writeFrame_reduces s (k + 1) w h true o2 now hw hh h1 h2 h3 h4 h5]
  by_cases hrot : s.maxFramesPerChunk ≤ s.framesInCurrentChunk
  · -- chunk budget reached: rotate, then write into the fresh chunk
    have hdvd : 9000 ∣ k := by
      rw [h6, h8] at hrot
      have hlt : (k - 1) % 9000 < 9000 := by omega
      have : 9000 ≤ ((k - 1) % 9000 : Nat) + 1 := by exact_mod_cast hrot
      omega
    obtain ⟨hn, -, -, -, hrec, hmax, hfic, hopen, -⟩ :=
      rotateChunk_fields true o2 now s
    obtain ⟨hsi, hfw, hfh, hwr, -⟩ := rotateChunk_preserved true o2 now s
    have hopenT : (rotateChunk true o2 now s).writerOpen = true := by
      rw [hopen]
      simp
    rw [if_pos hrot, if_pos hopenT]
    refine ⟨by simp [hrec, h1], by simp [hsi, h2], by simp [hfw, h3],
      by simp [hfh, h4], by simp [hopenT], by simp [hmax, h6], ?_, ?_, ?_⟩
    · simp only [hn, h7]
      have : k / 9000 = (k - 1) / 9000 + 1 := by omega
      rw [this]
      push_cast
      ring
    · simp only [hfic]
      have : k % 9000 = 0 := by omega
      rw [this]
      norm_num
    · simp only [hwr, h9, hn, h7, List.range_succ, List.map_append, List.map_cons,
        List.map_nil]
      congr 2
      have : k / 9000 = (k - 1) / 9000 + 1 := by omega
      rw [this]
      push_cast
      ring
  · -- still inside the current chunk: plain write
    rw [if_neg hrot]
    refine ⟨by simp [h1], by simp [h2], by simp [h3], by simp [h4], by simp [h5],
      by simp [h6], ?_, ?_, ?_⟩
    · simp only [h7]
      have : k / 9000 = (k - 1) / 9000 := by
        rw [h6, h8] at hrot
        have : ¬ 9000 ≤ ((k - 1) % 9000 : Nat) + 1 := by
          intro hc
          exact hrot (by exact_mod_cast hc)
        omega
      rw [this]
    · simp only [h8]
      have : k % 9000 = (k - 1) % 9000 + 1 := by
        rw [h6, h8] at hrot
        have : ¬ 9000 ≤ ((k - 1) % 9000 : Nat) + 1 := by
          intro hc
          exact hrot (by exact_mod_cast hc)
        omega
      rw [this]
      push_cast
      ring
    · simp only [h9, h7, List.range_succ, List.map_append, List.map_cons, List.map_nil]
      congr 2
      have : k / 9000 = (k - 1) / 9000 := by
        rw [h6, h8] at hrot
        have : ¬ 9000 ≤ ((k - 1) % 9000 : Nat) + 1 := by
          intro hc
          exact hrot (by exact_mod_cast hc)
        omega
      rw [this]

/-- The first valid frame delivered to a fresh recording state initializes
the frame size, opens chunk 1, and is written into it. -/
theorem writeFrame_fresh (s : VideoRecorder) (fid : Nat) (w h : Int) (o2 : Bool)
    (now : String) (hw : 0 < w) (hh : 0 < h)
    (h1 : s.recording = true) (h2 : s.sizeInitialized = false)
    (h3 : s.writerOpen = false) (h4 : s.chunkNumber = 0)
    (h5 : s.framesInCurrentChunk = 0) (h6 : s.maxFramesPerChunk = 9000)
    (h7 : s.writes = []) :
    (writeFrame true o2 now s ⟨fid, w, h, false⟩).recording = true
    ∧ (writeFrame true o2 now s ⟨fid, w, h, false⟩).sizeInitialized = true
    ∧ (writeFrame true o2 now s ⟨fid, w, h, false⟩).frameWidth = w
    ∧ (writeFrame true o2 now s ⟨fid, w, h, false⟩).frameHeight = h
    ∧ (writeFrame true o2 now s ⟨fid, w, h, false⟩).writerOpen = true
    ∧ (writeFrame true o2 now s ⟨fid, w, h, false⟩).maxFramesPerChunk = 9000
    ∧ (writeFrame true o2 now s ⟨fid, w, h, false⟩).chunkNumber = 1
    ∧ (writeFrame true o2 now s ⟨fid, w, h, false⟩).framesInCurrentChunk = 1
    ∧ (writeFrame true o2 now s ⟨fid, w, h, false⟩).writes = [(fid, 1)] := by
  have hnw : ¬ (w ≤ 0) := by omega
  have hnh : ¬ (h ≤ 0) := by omega
  obtain ⟨hn, -, -, -, hrec, hmax, hfic, hopen, -⟩ :=
    rotateChunk_fields true o2 now
      { s with
        frameWidth := w
        frameHeight := h
        sizeInitialized := true
        writerOpen := false }
  obtain ⟨hsi, hfw, hfh, hwr, -⟩ :=
    rotateChunk_preserved true o2 now
      { s with
        frameWidth := w
        frameHeight := h
        sizeInitialized := true
        writerOpen := false }
  have hopenT : (rotateChunk true o2 now
      { s with
        frameWidth := w
        frameHeight := h
        sizeInitialized := true
        writerOpen := false }).writerOpen = true := by
    rw [hopen]
    simp
  unfold writeFrame
  rw [if_neg (by simp [h1])]
  rw [if_neg (by simp [hnw, hnh])]
  simp only [h2, Bool.not_false, if_true, ne_eq, eq_self_iff_true, not_true,
    decide_False, Bool.or_self, Bool.false_eq_true, if_false, h3, Bool.not_false,
    Bool.true_or, if_true]
  simp only [hopenT, Bool.not_true, Bool.false_eq_true, if_false]
  refine ⟨?_, ?_, ?_, ?_, ?_, ?_, ?_, ?_, ?_⟩
  · rw [hrec]
    exact h1
  · rw [hsi]
  · rw [hfw]
  · rw [hfh]
  · trivial
  · rw [hmax]
    exact h6
  · rw [hn]
    show s.chunkNumber + 1 = 1
    rw [h4]
    norm_num
  · rw [hfic]
    norm_num
  · rw [hwr, hn]
    show s.writes ++ [(fid, s.chunkNumber + 1)] = [(fid, 1)]
    rw [h7, h4]
    norm_num

/-- Invariant propagation: delivering `r` further uniform frames, starting
after frame `k`, extends the write log to frame `k + r` with each frame in
its 9000-budget chunk. -/
theorem deliver_inv (w h : Int) (o2 : Bool) (now : String)
    (hw : 0 < w) (hh : 0 < h) :
    ∀ (r k : Nat) (s : VideoRecorder), 1 ≤ k →
    s.recording = true → s.sizeInitialized = true → s.frameWidth = w →
    s.frameHeight = h → s.writerOpen = true → s.maxFramesPerChunk = 9000 →
    s.chunkNumber = (((k - 1) / 9000 : Nat) : Int) + 1 →
    s.framesInCurrentChunk = (((k - 1) % 9000 : Nat) : Int) + 1 →
    s.writes = (List.range k).map (fun j => (j + 1, ((j / 9000 : Nat) : Int) + 1)) →
    (deliverFrames true o2 now s (framesFrom w h (k + 1) r)).writes
        = (List.range (k + r)).map (fun j => (j + 1, ((j / 9000 : Nat) : Int) + 1)) := by
  intro r
  induction r with
  | zero =>
    intro k s _ _ _ _ _ _ _ _ _ h9
    rw [Nat.add_zero]
    exact h9
  | succ r ih =>
    intro k s hk h1 h2 h3 h4 h5 h6 h7 h8 h9
    obtain ⟨s1, s2, s3, s4, s5, s6, s7, s8, s9⟩ :=
      writeFrame_step s k w h o2 now hw hh hk h1 h2 h3 h4 h5 h6 h7 h8 h9
    have s7' : (writeFrame true o2 now s ⟨k + 1, w, h, false⟩).chunkNumber
        = (((k + 1 - 1) / 9000 : Nat) : Int) + 1 := by
      simpa using s7
    have s8' : (writeFrame true o2 now s ⟨k + 1, w, h, false⟩).framesInCurrentChunk
        = (((k + 1 - 1) % 9000 : Nat) : Int) + 1 := by
      simpa using s8
    have hrest := ih (k + 1) (writeFrame true o2 now s ⟨k + 1, w, h, false⟩)
      (by omega) s1 s2 s3 s4 s5 s6 s7' s8' s9
    have harith : k + 1 + r = k + (r + 1) := by omega
    rw [harith] at hrest
    simpa [framesFrom, deliverFrames] using hrest

/-- Claim C6: with `chunkDurationSeconds = 300` and `fps = 30` the per-chunk
budget is `30 * 300 = 9000` frames; over any uniform valid frame sequence,
frame `k` is written (exactly once, no loss, no duplication) into chunk
`(k - 1) / 9000 + 1`, so frame 9000 lands in chunk 1 and frame 9001 is the
first frame of chunk 2. -/
theorem videoRecorder_chunk_boundary_9000 (S : Int) (D codec : String)
    (o2 : Bool) (now : String) (w h : Int) (hw : 0 < w) (hh : 0 < h) (N : Nat) :
    (startRecording true (mkVideoRecorder S) D 30 codec 300).1.maxFramesPerChunk = 9000
    ∧ (chunkScenario S D codec o2 now w h N).writes
        = (List.range N).map (fun j => (j + 1, ((j / 9000 : Nat) : Int) + 1))
    ∧ (chunkScenario S D codec o2 now w h N).writes.length = N
    ∧ (9000 ≤ N →
        (chunkScenario S D codec o2 now w h N).writes[8999]? = some (9000, 1))
    ∧ (9001 ≤ N →
        (chunkScenario S D codec o2 now w h N).writes[9000]? = some (9001, 2)) := by
  have hmax : (startRecording true (mkVideoRecorder S) D 30 codec 300).1.maxFramesPerChunk
      = 9000 := by
    simp [startRecording, mkVideoRecorder]
  have hwrites : (chunkScenario S D codec o2 now w h N).writes
      = (List.range N).map (fun j => (j + 1, ((j / 9000 : Nat) : Int) + 1)) := by
    cases N with
    | zero => simp [chunkScenario, deliverFrames, framesFrom, startRecording, mkVideoRecorder]
    | succ M =>
      have hs0 : (startRecording true (mkVideoRecorder S) D 30 codec 300).1.recording = true
          ∧ (startRecording true (mkVideoRecorder S) D 30 codec 300).1.sizeInitialized = false
          ∧ (startRecording true (mkVideoRecorder S) D 30 codec 300).1.writerOpen = false
          ∧ (startRecording true (mkVideoRecorder S) D 30 codec 300).1.chunkNumber = 0
          ∧ (startRecording true (mkVideoRecorder S) D 30 codec 300).1.framesInCurrentChunk = 0
          ∧ (startRecording true (mkVideoRecorder S) D 30 codec 300).1.writes = [] := by
        simp [startRecording, mkVideoRecorder]
      obtain ⟨g1, g2, g3, g4, g5, g6⟩ := hs0
      obtain ⟨f1, f2, f3, f4, f5, f6, f7, f8, f9⟩ :=
        writeFrame_fresh (startRecording true (mkVideoRecorder S) D 30 codec 300).1
          1 w h o2 now hw hh g1 g2 g3 g4 g5 hmax g6
      have f7' : (writeFrame true o2 now
          (startRecording true (mkVideoRecorder S) D 30 codec 300).1 ⟨1, w, h, false⟩).chunkNumber
            = (((1 - 1) / 9000 : Nat) : Int) + 1 := by
        rw [f7]
        norm_num
      have f8' : (writeFrame true o2 now
          (startRecording true (mkVideoRecorder S) D 30 codec 300).1
            ⟨1, w, h, false⟩).framesInCurrentChunk
            = (((1 - 1) % 9000 : Nat) : Int) + 1 := by
        rw [f8]
        norm_num
      have f9' : (writeFrame true o2 now
          (startRecording true (mkVideoRecorder S) D 30 codec 300).1 ⟨1, w, h, false⟩).writes
            = (List.range 1).map (fun j => (j + 1, ((j / 9000 : Nat) : Int) + 1)) := by
        rw [f9]
        decide
      have := deliver_inv w h o2 now hw hh M 1
        (writeFrame true o2 now
          (startRecording true (mkVideoRecorder S) D 30 codec 300).1 ⟨1, w, h, false⟩)
        (by omega) f1 f2 f3 f4 f5 f6 f7' f8' f9'
      have harith : 1 + M = M + 1 := by omega
      rw [harith] at this
      simpa [chunkScenario, deliverFrames, framesFrom] using this
  refine ⟨hmax, hwrites, ?_, ?_, ?_⟩
  · rw [hwrites]
    simp
  · intro hN
    rw [hwrites]
    have h8999 : 8999 < N := by omega
    simp [List.getElem?_map, List.getElem?_range, h8999]
  · intro hN
    rw [hwrites]
    have h9000 : 9000 < N := by omega
    simp [List.getElem?_map, List.getElem?_range, h9000]

/-- Witness for C6 at a 9001-frame session: frame 9000 is in chunk 1 and
frame 9001 in chunk 2. -/
theorem videoRecorder_chunk_boundary_9000_witness :
    (chunkScenario 0 "/tmp/rec" "mp4v" true "20260101_000000" 2 2 9001).writes[8999]?
        = some (9000, 1)
    ∧ (chunkScenario 0 "/tmp/rec" "mp4v" true "20260101_000000" 2 2 9001).writes[9000]?
        = some (9001, 2) := by
  have h := videoRecorder_chunk_boundary_9000 0 "/tmp/rec" "mp4v" true "20260101_000000"
    2 2 (by norm_num) (by norm_num) 9001
  exact ⟨h.2.2.2.1 (by norm_num), h.2.2.2.2 (by norm_num)⟩

/-- `writeFrame` on a valid, size-matching frame while the writer is closed
and both open attempts fail reduces to the failed rotation: the frame is
skipped, nothing blocks. -/
theorem writeFrame_closed_reduces (s : VideoRecorder) (fid : Nat) (w h : Int)
    (now : String) (hw : 0 < w) (hh : 0 < h)
    (hrec : s.recording = true) (hsz : s.sizeInitialized = true)
    (hfw : s.frameWidth = w) (hfh : s.frameHeight = h)
    (hopen : s.writerOpen = false) :
    writeFrame false false now s ⟨fid, w, h, false⟩ = rotateChunk false false now s := by
  have hnw : ¬ (w ≤ 0) := by omega
  have hnh : ¬ (h ≤ 0) := by omega
  have hopenF : (rotateChunk false false now s).writerOpen = false := by
    obtain ⟨-, -, -, -, -, -, -, ho, -⟩ := rotateChunk_fields false false now s
    rw [ho]
    simp
  unfold writeFrame
  rw [if_neg (by simp [hrec])]
  rw [if_neg (by simp [hnw, hnh])]
  simp only [hsz, hfw, hfh, Bool.not_true, Bool.false_eq_true, if_false, ne_eq,
    eq_self_iff_true, not_true, decide_False, Bool.or_self, hopen, Bool.not_false,
    Bool.true_or, if_true, hopenF]

/-- Claim C8 (amended): when opening a chunk's writer fails, the recorder
retries exactly once with the mp4v fallback fourcc (and does not retry when
the first open succeeds); if the retry also fails it emits `errorOccurred`,
leaves the writer closed, and does NOT stop recording (the recording flag
is untouched, so the next delivered frame re-attempts a rotation); frame
delivery is never blocked: `writeFrame` over the failed writer returns
without writing. -/
theorem videoRecorder_open_failure_fallback (s : VideoRecorder) (now : String)
    (o2 : Bool) (fid : Nat) (w h : Int)
    (hrec : s.recording = true) (hopen : s.writerOpen = false)
    (hsz : s.sizeInitialized = true) (hfw : s.frameWidth = w) (hfh : s.frameHeight = h)
    (hw : 0 < w) (hh : 0 < h) :
    (rotateChunk false o2 now s).opens
        = s.opens
          ++ [(s.outputDirectory ++ "/slot_" ++ toString s.slotId ++ "/"
                ++ zeroPad3 (s.chunkNumber + 1) ++ "_" ++ now ++ ".mp4",
              fourccFor s.codec),
             (s.outputDirectory ++ "/slot_" ++ toString s.slotId ++ "/"
                ++ zeroPad3 (s.chunkNumber + 1) ++ "_" ++ now ++ ".mp4", "mp4v")]
    ∧ (rotateChunk true o2 now s).opens
        = s.opens
          ++ [(s.outputDirectory ++ "/slot_" ++ toString s.slotId ++ "/"
                ++ zeroPad3 (s.chunkNumber + 1) ++ "_" ++ now ++ ".mp4",
              fourccFor s.codec)]
    ∧ (rotateChunk false false now s).events
        = s.events
          ++ [.errorOccurred ("Failed to open video writer: "
              ++ (s.outputDirectory ++ "/slot_" ++ toString s.slotId ++ "/"
                ++ zeroPad3 (s.chunkNumber + 1) ++ "_" ++ now ++ ".mp4"))]
    ∧ (rotateChunk false false now s).writerOpen = false
    ∧ (rotateChunk false false now s).recording = true
    ∧ (writeFrame false false now s ⟨fid, w, h, false⟩).writes = s.writes
    ∧ (writeFrame false false now s ⟨fid, w, h, false⟩).totalFramesWritten
        = s.totalFramesWritten
    ∧ (writeFrame false false now s ⟨fid, w, h, false⟩).recording = true := by
  have hred := writeFrame_closed_reduces s fid w h now hw hh hrec hsz hfw hfh hopen
  obtain ⟨-, -, -, -, hrec2, -, -, ho2f, -⟩ := rotateChunk_fields false false now s
  obtain ⟨-, -, -, hwr2, htot2⟩ := rotateChunk_preserved false false now s
  refine ⟨?_, ?_, ?_, ?_, ?_, ?_, ?_, ?_⟩
  · unfold rotateChunk generateFilename
    by_cases ho2 : o2 <;> simp [hopen, ho2]
  · unfold rotateChunk generateFilename
    by_cases ho2 : o2 <;> simp [hopen, ho2]
  · unfold rotateChunk generateFilename
    simp [hopen]
  · rw [ho2f]
    simp
  · rw [hrec2]
    exact hrec
  · rw [hred]
    exact hwr2
  · rw [hred]
    exact htot2
  · rw [hred, hrec2]
    exact hrec

/-- Witness for the amended C8 at a concrete recording state with a closed
writer. -/
theorem videoRecorder_open_failure_fallback_witness :
    (rotateChunk false false "ts"
        (⟨1, true, "/out", 30, "h264", 300, 9000, 0, 0, 0, 2, 2, true, false,
          "", "", [], [], []⟩ : VideoRecorder)).writerOpen = false
    ∧ (rotateChunk false false "ts"
        (⟨1, true, "/out", 30, "h264", 300, 9000, 0, 0, 0, 2, 2, true, false,
          "", "", [], [], []⟩ : VideoRecorder)).recording = true
    ∧ (writeFrame false false "ts"
        (⟨1, true, "/out", 30, "h264", 300, 9000, 0, 0, 0, 2, 2, true, false,
          "", "", [], [], []⟩ : VideoRecorder) ⟨1, 2, 2, false⟩).writes = [] := by
  have h := videoRecorder_open_failure_fallback
    (⟨1, true, "/out", 30, "h264", 300, 9000, 0, 0, 0, 2, 2, true, false,
      "", "", [], [], []⟩ : VideoRecorder) "ts" false 1 2 2
    rfl rfl rfl rfl rfl (by norm_num) (by norm_num)
  exact ⟨h.2.2.2.1, h.2.2.2.2.1, h.2.2.2.2.2.1⟩

/-- Counterexample to C8 as stated: after both open attempts fail,
`errorOccurred` is emitted and the frame is skipped, but recording is NOT
stopped for the slot — the recording flag remains true, contradicting the
claim that the recorder "stops recording for that slot". -/
theorem videoRecorder_open_failure_keeps_recording_counterexample :
    (writeFrame false false "ts"
        (⟨1, true, "/out", 30, "h264", 300, 9000, 0, 0, 0, 2, 2, true, false,
          "", "", [], [], []⟩ : VideoRecorder) ⟨1, 2, 2, false⟩).recording = true
    ∧ (writeFrame false false "ts"
        (⟨1, true, "/out", 30, "h264", 300, 9000, 0, 0, 0, 2, 2, true, false,
          "", "", [], [], []⟩ : VideoRecorder) ⟨1, 2, 2, false⟩).events.countP
        RecEvent.isError = 1
    ∧ (writeFrame false false "ts"
        (⟨1, true, "/out", 30, "h264", 300, 9000, 0, 0, 0, 2, 2, true, false,
          "", "", [], [], []⟩ : VideoRecorder) ⟨1, 2, 2, false⟩).writes = [] := by
  decide

/-- Claim C4: on every chunk rotation while recording with an active
encoder, the standby encoder is configured, given the new output path,
attached to the session (detaching the old one atomically), marked active
and started, strictly before the old encoder is stopped and before its
`chunkCompleted` is emitted — so there is never a step with no encoder
attached to the frame feed; and `stopRecording` (rotation on source stop)
finalizes the active encoder, emitting its `chunkCompleted`, without
configuring, attaching or starting any replacement. -/
theorem qtVideoRecorder_rotation_ordering (s : QtVideoRecorder) (now : String)
    (o : RecId) (hrec : s.recording = true) (hsess : s.hasSession = true)
    (hactive : s.activeRecorder = some o) (hrecSt : recState s o = true)
    (hfn : s.currentFilename ≠ "") :
    (qtRotateChunk now s).trace
      = s.trace
        ++ [QtAction.configure (getStandbyRecorder s),
            QtAction.setOutputLocation (getStandbyRecorder s)
              (s.outputDirectory ++ "/slot_" ++ toString s.slotId ++ "/"
                ++ zeroPad3 (s.chunkNumber + 1) ++ "_" ++ now ++ ".mp4"),
            QtAction.setSessionRecorder (getStandbyRecorder s),
            QtAction.record (getStandbyRecorder s),
            QtAction.stopRecorder o,
            QtAction.emitChunkCompleted s.chunkNumber s.currentFilename,
            QtAction.startTimer (s.chunkDurationSeconds * 1000),
            QtAction.emitChunkStarted (s.chunkNumber + 1)
              (s.outputDirectory ++ "/slot_" ++ toString s.slotId ++ "/"
                ++ zeroPad3 (s.chunkNumber + 1) ++ "_" ++ now ++ ".mp4")]
    ∧ getStandbyRecorder s ≠ o
    ∧ (qtRotateChunk now s).sessionRecorder = some (getStandbyRecorder s)
    ∧ (qtRotateChunk now s).activeRecorder = some (getStandbyRecorder s)
    ∧ recState (qtRotateChunk now s) (getStandbyRecorder s) = true
    ∧ ((qtStopRecording s).trace.drop s.trace.length).countP QtAction.isStartLike = 0
    ∧ QtAction.emitChunkCompleted s.chunkNumber s.currentFilename
        ∈ (qtStopRecording s).trace.drop s.trace.length
    ∧ (qtStopRecording s).activeRecorder = none
    ∧ (qtStopRecording s).recording = false := by
  have hstandby : getStandbyRecorder s ≠ o := by
    cases o <;> simp [getStandbyRecorder, hactive]
  have hrot : qtRotateChunk now s
      = { s with
          chunkNumber := s.chunkNumber + 1
          chunkStartTime := now
          currentFilename := s.outputDirectory ++ "/slot_" ++ toString s.slotId ++ "/"
            ++ zeroPad3 (s.chunkNumber + 1) ++ "_" ++ now ++ ".mp4"
          sessionRecorder := some (getStandbyRecorder s)
          activeRecorder := some (getStandbyRecorder s)
          recStateA := (if o = RecId.A then false else true)
          recStateB := (if o = RecId.B then false else true)
          trace := s.trace
            ++ [QtAction.configure (getStandbyRecorder s),
                QtAction.setOutputLocation (getStandbyRecorder s)
                  (s.outputDirectory ++ "/slot_" ++ toString s.slotId ++ "/"
                    ++ zeroPad3 (s.chunkNumber + 1) ++ "_" ++ now ++ ".mp4"),
                QtAction.setSessionRecorder (getStandbyRecorder s),
                QtAction.record (getStandbyRecorder s),
                QtAction.stopRecorder o,
                QtAction.emitChunkCompleted s.chunkNumber s.currentFilename,
                QtAction.startTimer (s.chunkDurationSeconds * 1000),
                QtAction.emitChunkStarted (s.chunkNumber + 1)
                  (s.outputDirectory ++ "/slot_" ++ toString s.slotId ++ "/"
                    ++ zeroPad3 (s.chunkNumber + 1) ++ "_" ++ now ++ ".mp4")] } := by
    unfold qtRotateChunk qtGenerateFilename getStandbyRecorder setRecState recState
    rw [if_neg (by simp [hrec])]
    rw [if_neg (by simp [hsess])]
    cases o with
    | A =>
      have hA : s.recStateA = true := hrecSt
      simp [hactive, hA, hfn]
    | B =>
      have hB : s.recStateB = true := hrecSt
      simp [hactive, hB, hfn]
  have htr : (qtStopRecording s).trace
      = s.trace
        ++ ([QtAction.stopTimer]
          ++ (if s.recStateA then [QtAction.stopRecorder RecId.A] else [])
          ++ (if s.recStateB then [QtAction.stopRecorder RecId.B] else [])
          ++ [QtAction.emitChunkCompleted s.chunkNumber s.currentFilename]
          ++ [QtAction.emitRecordingStateChanged false]) := by
    unfold qtStopRecording setRecState
    rw [if_neg (by simp [hrec])]
    by_cases hA : s.recStateA <;> by_cases hB : s.recStateB <;>
      simp [hA, hB, hfn]
  refine ⟨by rw [hrot], hstandby, by rw [hrot], by rw [hrot], ?_, ?_, ?_, ?_, ?_⟩
  · cases o with
    | A =>
      rw [hrot]
      simp [getStandbyRecorder, hactive, recState]
    | B =>
      rw [hrot]
      simp [getStandbyRecorder, hactive, recState]
  · rw [htr, List.drop_left]
    by_cases hA : s.recStateA <;> by_cases hB : s.recStateB <;>
      simp [hA, hB, List.countP_append, List.countP_cons, List.countP_nil,
        QtAction.isStartLike]
  · rw [htr, List.drop_left]
    by_cases hA : s.recStateA <;> by_cases hB : s.recStateB <;> simp [hA, hB]
  · unfold qtStopRecording setRecState
    rw [if_neg (by simp [hrec])]
  · unfold qtStopRecording setRecState
    rw [if_neg (by simp [hrec])]
    by_cases hA : s.recStateA <;> by_cases hB : s.recStateB <;> simp [hA, hB, hfn]

/-- Witness for C4 at a concrete mid-recording state with recorder A active. -/
theorem qtVideoRecorder_rotation_ordering_witness :
    getStandbyRecorder
        (⟨3, true, true, some RecId.A, some RecId.A, true, false, 1, 300, "/out",
          "/out/slot_3/001_t0.mp4", "t0", []⟩ : QtVideoRecorder) ≠ RecId.A
    ∧ (qtRotateChunk "t1"
        (⟨3, true, true, some RecId.A, some RecId.A, true, false, 1, 300, "/out",
          "/out/slot_3/001_t0.mp4", "t0", []⟩ : QtVideoRecorder)).sessionRecorder
        = some (getStandbyRecorder
            (⟨3, true, true, some RecId.A, some RecId.A, true, false, 1, 300, "/out",
              "/out/slot_3/001_t0.mp4", "t0", []⟩ : QtVideoRecorder))
    ∧ ((qtStopRecording
        (⟨3, true, true, some RecId.A, some RecId.A, true, false, 1, 300, "/out",
          "/out/slot_3/001_t0.mp4", "t0", []⟩ : QtVideoRecorder)).trace.drop
        (⟨3, true, true, some RecId.A, some RecId.A, true, false, 1, 300, "/out",
          "/out/slot_3/001_t0.mp4", "t0", []⟩ : QtVideoRecorder).trace.length).countP
        QtAction.isStartLike = 0 := by
  have h := qtVideoRecorder_rotation_ordering
    (⟨3, true, true, some RecId.A, some RecId.A, true, false, 1, 300, "/out",
      "/out/slot_3/001_t0.mp4", "t0", []⟩ : QtVideoRecorder) "t1" RecId.A
    rfl rfl rfl rfl (by decide)
  exact ⟨h.2.1, h.2.2.1, h.2.2.2.2.2.1⟩

/-- Claim C7 (amended): starting a wired slot whose configured device index
is outside the currently known device list performs no native connect
attempt on that index — but it also emits NO failure/error event: it simply
resets the streaming flag and shows the "No Signal" status label. -/
theorem cameraSlot_out_of_range_no_connect (src : String) (idx count : Int)
    (s : CameraSlot) (hs : s.streaming = false)
    (hout : idx < 0 ∨ count ≤ idx) :
    (startStream SrcType.wired src idx count s).actions
        = s.actions
          ++ [SlotAction.resetVideoItem, SlotAction.updateStatus "Connecting...",
              SlotAction.updateStatus "No Signal"]
    ∧ (startStream SrcType.wired src idx count s).streaming = false
    ∧ (startStream SrcType.wired src idx count s).statusLabel = "No Signal"
    ∧ ((startStream SrcType.wired src idx count s).actions.drop
        s.actions.length).countP SlotAction.isError = 0
    ∧ ((startStream SrcType.wired src idx count s).actions.drop
        s.actions.length).countP SlotAction.isConnectAttempt = 0 := by
  have hred : startStream SrcType.wired src idx count s
      = { s with
          streaming := false
          statusLabel := "No Signal"
          actions := s.actions
            ++ [SlotAction.resetVideoItem, SlotAction.updateStatus "Connecting...",
                SlotAction.updateStatus "No Signal"] } := by
    unfold startStream
    rw [if_neg (by simp [hs])]
    rw [if_neg (by simp)]
    rw [if_neg (by simp)]
    rw [if_pos hout]
    simp
  rw [hred]
  refine ⟨by simp, rfl, rfl, ?_, ?_⟩
  · rw [show ({ s with
        streaming := false
        statusLabel := "No Signal"
        actions := s.actions
          ++ [SlotAction.resetVideoItem, SlotAction.updateStatus "Connecting...",
              SlotAction.updateStatus "No Signal"] } : CameraSlot).actions
      = s.actions ++ [SlotAction.resetVideoItem,
          SlotAction.updateStatus "Connecting...",
          SlotAction.updateStatus "No Signal"] from rfl, List.drop_left]
    decide
  · rw [show ({ s with
        streaming := false
        statusLabel := "No Signal"
        actions := s.actions
          ++ [SlotAction.resetVideoItem, SlotAction.updateStatus "Connecting...",
              SlotAction.updateStatus "No Signal"] } : CameraSlot).actions
      = s.actions ++ [SlotAction.resetVideoItem,
          SlotAction.updateStatus "Connecting...",
          SlotAction.updateStatus "No Signal"] from rfl, List.drop_left]
    decide

/-- Witness for the amended C7: index 5 with only 2 known devices. -/
theorem cameraSlot_out_of_range_no_connect_witness :
    (startStream SrcType.wired "5" 5 2 (⟨0, false, "No Signal", []⟩ : CameraSlot)).actions
        = [SlotAction.resetVideoItem, SlotAction.updateStatus "Connecting...",
            SlotAction.updateStatus "No Signal"]
    ∧ (startStream SrcType.wired "5" 5 2
        (⟨0, false, "No Signal", []⟩ : CameraSlot)).streaming = false := by
  have h := cameraSlot_out_of_range_no_connect "5" 5 2
    (⟨0, false, "No Signal", []⟩ : CameraSlot) rfl (by norm_num)
  exact ⟨by simpa using h.1, h.2.1⟩

/-- Counterexample to C7 as stated: for device index 5 with 2 known
devices, `startStream` emits no failure/error event at all (the claim
requires the Failed/error event to be emitted); it only flips the status
label to "No Signal". -/
theorem cameraSlot_no_failed_event_counterexample :
    (startStream SrcType.wired "5" 5 2
        (⟨0, false, "No Signal", []⟩ : CameraSlot)).actions.countP
        SlotAction.isError = 0
    ∧ (startStream SrcType.wired "5" 5 2
        (⟨0, false, "No Signal", []⟩ : CameraSlot)).statusLabel = "No Signal" := by
  decide

/-- After the failure threshold, the gaps settle into the alternating
10 s / 0 pattern (one 10 s wait, then one immediate retry). -/
theorem deviceRetryTrace_steady (n : Nat) :
    ∀ (fa : Int), 1 ≤ fa → ∀ acc : Nat,
    attemptGaps (deviceRetryTrace (List.replicate n false) fa) acc
      = (List.range n).map
          (fun i => if i = 0 then acc else if i % 2 = 1 then 10000 else 0) := by
  induction n using Nat.strong_induction_on with
  | _ n ih =>
    match n with
    | 0 => intro fa hfa acc; rfl
    | 1 =>
      intro fa hfa acc
      unfold deviceRetryTrace
      rw [List.replicate_succ, List.replicate_zero]
      simp only [Bool.false_eq_true, if_false]
      rw [if_pos (by omega)]
      simp [attemptGaps, List.range_succ]
    | (m + 2) =>
      intro fa hfa acc
      have hsub := ih m (by omega) (fa + 1) (by omega) 0
      rw [List.replicate_succ, List.replicate_succ]
      unfold deviceRetryTrace
      simp only [Bool.false_eq_true, if_false]
      rw [if_pos (by omega)]
      simp only [attemptGaps, Nat.zero_add, Nat.add_zero]
      rw [hsub]
      have hr2 : List.range (m + 2) = 0 :: 1 :: (List.range m).map (fun i => i + 2) := by
        rw [List.range_succ_eq_map, List.range_succ_eq_map, List.map_cons,
          List.map_map]
        rfl
      rw [hr2]
      simp only [List.map_cons, List.map_map, List.cons.injEq]
      refine ⟨by norm_num, by norm_num, ?_⟩
      · rw [List.map_congr_left]
        intro i _
        simp only [Function.comp_apply]
        by_cases h0 : i = 0
        · subst h0
          norm_num
        · have h1 : ¬ (i + 2 = 0) := by omega
          have h2 : (i + 2) % 2 = i % 2 := by omega
          simp only [h0, h1, if_false, h2]

/-- Claim C9 (amended): in the wired-device retry loop under consecutive
failures, the gap before attempt 1 is 0, before attempt 2 it is 2 s, and
from the failure threshold on the gaps alternate 10 s / 0: after the
error is reported the loop waits 10 s and then performs one immediate
extra attempt, so every gap is bounded by 10 s (and at least one 10 s wait
separates every later pair of attempts), but the gap sequence is neither
non-decreasing nor is every failed attempt followed by a positive delay. -/
theorem deviceCapture_retry_gap_pattern (n : Nat) :
    attemptGaps (deviceRetryTrace (List.replicate n false) 0) 0
      = (List.range n).map
          (fun i => if i = 0 then 0 else if i = 1 then 2000
            else if i % 2 = 0 then 10000 else 0)
    ∧ (attemptGaps (deviceRetryTrace (List.replicate n false) 0) 0).all
        (fun g => g ≤ 10000) = true := by
  have hmain : attemptGaps (deviceRetryTrace (List.replicate n false) 0) 0
      = (List.range n).map
          (fun i => if i = 0 then 0 else if i = 1 then 2000
            else if i % 2 = 0 then 10000 else 0) := by
    cases n with
    | zero => rfl
    | succ m =>
      rw [List.replicate_succ]
      unfold deviceRetryTrace
      simp only [Bool.false_eq_true, if_false]
      rw [if_neg (by omega)]
      simp only [attemptGaps, Nat.zero_add, Nat.add_zero]
      have h01 : (0 : Int) + 1 = 1 := by norm_num
      rw [h01, deviceRetryTrace_steady m 1 (by omega) 2000]
      rw [List.range_succ_eq_map]
      simp only [List.map_cons, List.map_map, List.cons.injEq]
      refine ⟨by norm_num, ?_⟩
      rw [List.map_congr_left]
      intro i _
      simp only [Function.comp_apply]
      by_cases h0 : i = 0
      · subst h0
        norm_num
      · have h1 : ¬ (i + 1 = 0) := by omega
        have h2 : ¬ (i + 1 = 1) := by omega
        have h3 : (i + 1) % 2 = 0 ↔ i % 2 = 1 := by omega
        by_cases hpar : i % 2 = 1
        · simp [h0, h1, h2, hpar, h3.mpr hpar]
        · have : ¬ ((i + 1) % 2 = 0) := by omega
          simp [h0, h1, h2, hpar, this]
  refine ⟨hmain, ?_⟩
  rw [hmain, List.all_map]
  rw [List.all_eq_true]
  intro i _
  simp only [Function.comp_apply]
  by_cases h0 : i = 0
  · simp [h0]
  · by_cases h1 : i = 1
    · simp [h0, h1]
    · by_cases h2 : i % 2 = 0 <;> simp [h0, h1, h2]

/-- Counterexample to C9 as stated: over four consecutive failed attempts
the inserted delays are 0 ms, 2000 ms, 10000 ms and 0 ms. The sequence is
not non-decreasing (10000 is followed by 0), and the failed third attempt
is followed by no delay at all: after the 10 s wait the loop makes one
immediate extra `openDevice()` call. -/
theorem deviceCapture_retry_gaps_counterexample :
    attemptGaps (deviceRetryTrace (List.replicate 4 false) 0) 0 = [0, 2000, 10000, 0]
    ∧ ¬ List.Sorted (· ≤ ·)
        (attemptGaps (deviceRetryTrace (List.replicate 4 false) 0) 0) := by
  constructor
  · decide
  · rw [show attemptGaps (deviceRetryTrace (List.replicate 4 false) 0) 0
        = [0, 2000, 10000, 0] from by decide]
    decide

end MCM
